import Mathlib

/-!
Verification of the AI-guided navigation and action-execution core of the
job-application automation repository (app/core/browser.py, app/core/llm.py,
app/core/job_processor.py).  Python dictionaries and JSON values are embedded
as the inductive type `JVal`; the collaborator interfaces (Playwright page,
language-model backend) are embedded as an explicit environment record
threading an abstract world state, so that every modeled routine is a total
Lean function whose `Except` layer mirrors Python exception propagation.
-/

/-- The opening curly brace character (written via its code point). -/
def lbrace : Char := Char.ofNat 123

/-- The closing curly brace character (written via its code point). -/
def rbrace : Char := Char.ofNat 125

/-- The single-quote character, used when rendering Python `str(dict)`. -/
def squote : String := (Char.ofNat 39).toString

/-- Embedding of Python values produced by `json.loads` (and of the literal
dictionaries the source builds): null, booleans, numbers (as rationals),
strings, lists and dicts (association lists in insertion order).  A number
is kept as a mantissa/exponent pair of integers (value m * 10 ^ e, exactly as
decoded); the source never computes with decoded numbers, so no arithmetic
on this representation is needed. -/
inductive JVal where
  | jnull : JVal
  | jbool (b : Bool) : JVal
  | jnum (m e : ℤ) : JVal
  | jstr (s : String) : JVal
  | jarr (xs : List JVal) : JVal
  | jobj (kvs : List (String × JVal)) : JVal


/-- Association-list lookup for `JVal.jobj`, first match wins (dict keys are
unique by construction of the decoder). -/
def jLookup : List (String × JVal) → String → Option JVal
  | [], _ => none
  | (k, v) :: rest, key => if k = key then some v else jLookup rest key

/-- Dict insertion with Python semantics: an existing key keeps its position
and gets the new value, a new key is appended. -/
def jInsert : List (String × JVal) → String → JVal → List (String × JVal)
  | [], k, v => [(k, v)]
  | (k0, v0) :: rest, k, v =>
      if k0 = k then (k0, v) :: rest else (k0, v0) :: jInsert rest k v

/-- Python truthiness of an embedded value (`if x:`). -/
def pyTruthy : JVal → Bool
  | .jnull => false
  | .jbool b => b
  | .jnum m _ => decide (m ≠ 0)
  | .jstr s => decide (s ≠ "")
  | .jarr xs => !xs.isEmpty
  | .jobj kvs => !kvs.isEmpty

/-- Python `x == "literal"` for an arbitrary value `x` and a string literal:
true exactly when `x` is an equal `str` (no other Python type compares equal
to a string).  This is the only shape of `==` the modeled source uses. -/
def pyEqStr : JVal → String → Bool
  | .jstr s, t => s == t
  | _, _ => false

/-- `d.get(k, default)`: total on dicts, raises `AttributeError` (modeled as
`Except.error`) on any non-dict value. -/
def pyGetD : JVal → String → JVal → Except String JVal
  | .jobj kvs, k, d => .ok ((jLookup kvs k).getD d)
  | _, k, _ => .error ("AttributeError: no attribute get for key " ++ k)

/-- `d[k]`: raises `KeyError` on a dict without the key and `TypeError` on a
non-dict value. -/
def pyIndex : JVal → String → Except String JVal
  | .jobj kvs, k =>
      match jLookup kvs k with
      | some v => .ok v
      | none => .error ("KeyError: " ++ k)
  | _, k => .error ("TypeError: string indices, key " ++ k)

/-- `for x in v`: lists iterate elements, strings iterate characters, dicts
iterate keys, everything else raises `TypeError`. -/
def pyIter : JVal → Except String (List JVal)
  | .jarr xs => .ok xs
  | .jstr s => .ok (s.toList.map (fun c => .jstr c.toString))
  | .jobj kvs => .ok (kvs.map (fun kv => .jstr kv.1))
  | _ => .error "TypeError: object is not iterable"

/-- Whether the value is a Python `str`. -/
def jIsStr : JVal → Bool
  | .jstr _ => true
  | _ => false

/-- Starting code points of the decimal-digit runs of the Unicode 14.0
character database (category Nd, as consumed by CPython 3.11's str
methods): each run is ten consecutive code points whose decimal values are
0 through 9. -/
def ndRangeStarts : List ℕ :=
  [
   0x30, 0x660, 0x6f0, 0x7c0, 0x966, 0x9e6, 0xa66, 0xae6,
   0xb66, 0xbe6, 0xc66, 0xce6, 0xd66, 0xde6, 0xe50, 0xed0,
   0xf20, 0x1040, 0x1090, 0x17e0, 0x1810, 0x1946, 0x19d0, 0x1a80,
   0x1a90, 0x1b50, 0x1bb0, 0x1c40, 0x1c50, 0xa620, 0xa8d0, 0xa900,
   0xa9d0, 0xa9f0, 0xaa50, 0xabf0, 0xff10, 0x104a0, 0x10d30, 0x11066,
   0x110f0, 0x11136, 0x111d0, 0x112f0, 0x11450, 0x114d0, 0x11650, 0x116c0,
   0x11730, 0x118e0, 0x11950, 0x11c50, 0x11d50, 0x11da0, 0x16a60, 0x16ac0,
   0x16b50, 0x1d7ce, 0x1d7d8, 0x1d7e2, 0x1d7ec, 0x1d7f6, 0x1e140, 0x1e2f0,
   0x1e950, 0x1fbf0
  ]

/-- Code points whose Unicode Numeric_Type is Digit but not Decimal
(Unicode 14.0): superscripts and subscripts, Ethiopic digits, circled,
parenthesized and full-stop digits, and similar.  For a character in this
set `str.isdigit` is true while `int()` raises `ValueError`. -/
def digitOnlyCodes : List ℕ :=
  [
   0xb2, 0xb3, 0xb9, 0x1369, 0x136a, 0x136b, 0x136c, 0x136d,
   0x136e, 0x136f, 0x1370, 0x1371, 0x19da, 0x2070, 0x2074, 0x2075,
   0x2076, 0x2077, 0x2078, 0x2079, 0x2080, 0x2081, 0x2082, 0x2083,
   0x2084, 0x2085, 0x2086, 0x2087, 0x2088, 0x2089, 0x2460, 0x2461,
   0x2462, 0x2463, 0x2464, 0x2465, 0x2466, 0x2467, 0x2468, 0x2474,
   0x2475, 0x2476, 0x2477, 0x2478, 0x2479, 0x247a, 0x247b, 0x247c,
   0x2488, 0x2489, 0x248a, 0x248b, 0x248c, 0x248d, 0x248e, 0x248f,
   0x2490, 0x24ea, 0x24f5, 0x24f6, 0x24f7, 0x24f8, 0x24f9, 0x24fa,
   0x24fb, 0x24fc, 0x24fd, 0x24ff, 0x2776, 0x2777, 0x2778, 0x2779,
   0x277a, 0x277b, 0x277c, 0x277d, 0x277e, 0x2780, 0x2781, 0x2782,
   0x2783, 0x2784, 0x2785, 0x2786, 0x2787, 0x2788, 0x278a, 0x278b,
   0x278c, 0x278d, 0x278e, 0x278f, 0x2790, 0x2791, 0x2792, 0x10a40,
   0x10a41, 0x10a42, 0x10a43, 0x10e60, 0x10e61, 0x10e62, 0x10e63, 0x10e64,
   0x10e65, 0x10e66, 0x10e67, 0x10e68, 0x11052, 0x11053, 0x11054, 0x11055,
   0x11056, 0x11057, 0x11058, 0x11059, 0x1105a, 0x1f100, 0x1f101, 0x1f102,
   0x1f103, 0x1f104, 0x1f105, 0x1f106, 0x1f107, 0x1f108, 0x1f109, 0x1f10a
  ]

/-- Decimal value of a character as used by Python's `int()` digit parsing:
defined exactly for the Unicode Nd code points. -/
def decDigit? (c : Char) : Option ℕ :=
  let n := c.toNat
  match ndRangeStarts.find? (fun s => decide (s ≤ n) && decide (n ≤ s + 9)) with
  | some s => some (n - s)
  | none => none

/-- Python's per-character digit test: Numeric_Type Decimal or Digit. -/
def isDigitChar (c : Char) : Bool :=
  (decDigit? c).isSome || digitOnlyCodes.contains c.toNat

/-- Python `str.isdigit`: non-empty and every character a digit-type
character (decimal digits and digit-only characters such as superscripts
alike). -/
def pyIsDigit (s : String) : Bool :=
  !s.isEmpty && s.toList.all isDigitChar

/-- Python `int(s)` applied to an isdigit-true string: succeeds exactly when
every character is a decimal (Nd) digit, composing the base-10 value; any
digit-only character makes `int()` raise `ValueError`.  (CPython's
configurable bound on the length of integer-string conversion is not
modeled.) -/
def pyInt? (s : String) : Option ℕ :=
  s.toList.foldl
    (fun acc c =>
      match acc, decDigit? c with
      | some n, some d => some (n * 10 + d)
      | _, _ => none)
    (some 0)

/-- Numeric value of an ASCII digit string, used by the JSON number decoder
(the JSON grammar admits only ASCII digits). -/
def digitsToNat (ds : List Char) : ℕ :=
  ds.foldl (fun n c => n * 10 + (c.toNat - 48)) 0

/-- JSON whitespace accepted by a strict decoder. -/
def isJsonWs (c : Char) : Bool :=
  c = ' ' || c = '\t' || c = '\n' || c = '\r'

/-- Drop leading JSON whitespace. -/
def skipWs : List Char → List Char
  | [] => []
  | c :: cs => if isJsonWs c then skipWs cs else c :: cs

/-- Whitespace stripped by Python `str.strip()` (ASCII cases). -/
def isPySpace (c : Char) : Bool :=
  c = ' ' || c = '\t' || c = '\n' || c = '\r' || c = Char.ofNat 11 || c = Char.ofNat 12

/-- Python `response.strip()`. -/
def pyStrip (s : String) : String :=
  String.mk (((s.toList.dropWhile isPySpace).reverse.dropWhile isPySpace).reverse)

/-- Value of a hexadecimal digit, for `\uXXXX` escapes. -/
def hexVal (c : Char) : Option ℕ :=
  if '0' ≤ c ∧ c ≤ '9' then some (c.toNat - 48)
  else if 'a' ≤ c ∧ c ≤ 'f' then some (c.toNat - 87)
  else if 'A' ≤ c ∧ c ≤ 'F' then some (c.toNat - 55)
  else none

/-- Decode a JSON string body (after the opening quote), strict mode:
control characters are rejected, standard escapes are honoured. -/
def jStrBody : ℕ → List Char → Option (String × List Char)
  | 0, _ => none
  | _ + 1, [] => none
  | fuel + 1, c :: rest =>
    if c = '"' then some ("", rest)
    else if c = '\\' then
      match rest with
      | [] => none
      | e :: rest2 =>
        let cont (ch : Char) (rs : List Char) : Option (String × List Char) :=
          (jStrBody fuel rs).map (fun p => (ch.toString ++ p.1, p.2))
        if e = '"' then cont '"' rest2
        else if e = '\\' then cont '\\' rest2
        else if e = '/' then cont '/' rest2
        else if e = 'b' then cont (Char.ofNat 8) rest2
        else if e = 'f' then cont (Char.ofNat 12) rest2
        else if e = 'n' then cont '\n' rest2
        else if e = 'r' then cont '\r' rest2
        else if e = 't' then cont '\t' rest2
        else if e = 'u' then
          match rest2 with
          | a :: b :: c2 :: d :: rest3 =>
            match hexVal a, hexVal b, hexVal c2, hexVal d with
            | some x, some y, some z, some w =>
                cont (Char.ofNat (((x * 16 + y) * 16 + z) * 16 + w)) rest3
            | _, _, _, _ => none
          | _ => none
        else none
    else if c.toNat < 32 then none
    else (jStrBody fuel rest).map (fun p => (c.toString ++ p.1, p.2))

/-- Span of leading decimal digits. -/
def takeDigits (cs : List Char) : List Char × List Char :=
  (cs.takeWhile Char.isDigit, cs.dropWhile Char.isDigit)

/-- Decode a strict JSON number: optional minus, integer part without leading
zeros, optional fraction, optional exponent; value as mantissa and power of
ten. -/
def jNum : List Char → Option ((ℤ × ℤ) × List Char) := fun cs =>
  let (neg, cs1) : Bool × List Char :=
    match cs with
    | '-' :: rest => (true, rest)
    | _ => (false, cs)
  match takeDigits cs1 with
  | ([], _) => none
  | (d :: ds, cs2) =>
    if d = '0' ∧ ds ≠ [] then none
    else
      let intPart : ℕ := digitsToNat (d :: ds)
      let (fracDigits, cs3) : List Char × List Char :=
        match cs2 with
        | '.' :: rest =>
          match takeDigits rest with
          | ([], _) => ([], '.' :: rest)
          | (fs, rest2) => (fs, rest2)
        | _ => ([], cs2)
      if cs3 ≠ cs2 ∧ fracDigits = [] then none
      else
        match cs2, fracDigits with
        | '.' :: _, [] => none
        | _, _ =>
          let mantissa : ℤ :=
            (if neg then -1 else 1) * (intPart * 10 ^ fracDigits.length + digitsToNat fracDigits)
          let frexp : ℤ := -(fracDigits.length : ℤ)
          match cs3 with
          | e :: rest =>
            if e = 'e' ∨ e = 'E' then
              let (esign, rest2) : Int × List Char :=
                match rest with
                | '-' :: r => (-1, r)
                | '+' :: r => (1, r)
                | _ => (1, rest)
              match takeDigits rest2 with
              | ([], _) => none
              | (eds, rest3) =>
                some ((mantissa, frexp + esign * (digitsToNat eds : ℤ)), rest3)
            else some ((mantissa, frexp), cs3)
          | [] => some ((mantissa, frexp), cs3)

/-- Check that the input starts with the given literal characters. -/
def expectChars : List Char → List Char → Option (List Char)
  | [], cs => some cs
  | e :: es, c :: cs => if c = e then expectChars es cs else none
  | _ :: _, [] => none

/-- Decoding task for the fuel-indexed JSON decoder: a value, an object body
(after the opening brace), object members with an accumulator, an array body,
or array elements with an accumulator. -/
inductive PJob where
  | pval : PJob
  | pobj : PJob
  | pmembers (acc : List (String × JVal)) : PJob
  | parr : PJob
  | pelems (acc : List JVal) : PJob

/-- Fuel-indexed JSON decoder (single structural recursion on the fuel so
that concrete runs reduce in the kernel; `jLoads` supplies ample fuel). -/
def jParseF : ℕ → PJob → List Char → Option (JVal × List Char)
  | 0, _, _ => none
  | fuel + 1, .pval, cs0 =>
    match skipWs cs0 with
    | [] => none
    | c :: rest =>
      if c = lbrace then jParseF fuel .pobj (skipWs rest)
      else if c = '[' then jParseF fuel .parr (skipWs rest)
      else if c = '"' then
        (jStrBody (rest.length + 1) rest).map (fun p => (.jstr p.1, p.2))
      else if c = 't' then (expectChars ['r', 'u', 'e'] rest).map (fun r => (.jbool true, r))
      else if c = 'f' then (expectChars ['a', 'l', 's', 'e'] rest).map (fun r => (.jbool false, r))
      else if c = 'n' then (expectChars ['u', 'l', 'l'] rest).map (fun r => (.jnull, r))
      else if c = '-' ∨ c.isDigit then (jNum (c :: rest)).map (fun p => (.jnum p.1.1 p.1.2, p.2))
      else none
  | fuel + 1, .pobj, cs =>
    match cs with
    | [] => none
    | c :: rest =>
      if c = rbrace then some (.jobj [], rest)
      else jParseF fuel (.pmembers []) (c :: rest)
  | fuel + 1, .pmembers acc, cs =>
    match cs with
    | [] => none
    | c :: rest =>
      if c = '"' then
        match jStrBody (rest.length + 1) rest with
        | none => none
        | some (k, r1) =>
          match skipWs r1 with
          | [] => none
          | c2 :: r2 =>
            if c2 = ':' then
              match jParseF fuel .pval r2 with
              | none => none
              | some (v, r3) =>
                let acc2 := jInsert acc k v
                match skipWs r3 with
                | [] => none
                | c3 :: r4 =>
                  if c3 = ',' then jParseF fuel (.pmembers acc2) (skipWs r4)
                  else if c3 = rbrace then some (.jobj acc2, r4)
                  else none
            else none
      else none
  | fuel + 1, .parr, cs =>
    match cs with
    | [] => none
    | c :: rest =>
      if c = ']' then some (.jarr [], rest)
      else jParseF fuel (.pelems []) (c :: rest)
  | fuel + 1, .pelems acc, cs =>
    match jParseF fuel .pval cs with
    | none => none
    | some (v, r1) =>
      match skipWs r1 with
      | [] => none
      | c :: r2 =>
        if c = ',' then jParseF fuel (.pelems (acc ++ [v])) (skipWs r2)
        else if c = ']' then some (.jarr (acc ++ [v]), r2)
        else none

/-- Embedding of strict `json.loads`: decode exactly one value, allowing
surrounding whitespace only; `none` models a raised `JSONDecodeError`. -/
def jLoads (s : String) : Option JVal :=
  let cs := s.toList
  match jParseF (3 * cs.length + 16) .pval cs with
  | some (v, rest) => if (skipWs rest).isEmpty then some v else none
  | none => none

/-! ## Model response parsing (app/core/llm.py)

`AINavigator.verify_state` and `AINavigator.get_navigation_plan` both run
`json.loads(response.strip())` and map a `JSONDecodeError` to a fixed default
dictionary.  There is no extraction of an embedded JSON object from
surrounding prose. -/

/-- Default dict returned by `verify_state` when the model response fails to
decode: `\x7b"success": False, "confidence": 0, "missing_requirements":
["parsing_error"]\x7d`. -/
def defaultVerifDict : JVal :=
  .jobj [("success", .jbool false), ("confidence", .jnum 0 0),
         ("missing_requirements", .jarr [.jstr "parsing_error"])]

/-- Default dict returned by `get_navigation_plan` when the model response
fails to decode. -/
def defaultPlanDict : JVal :=
  .jobj [("status", .jstr "error"), ("message", .jstr "Invalid plan format"),
         ("actions", .jarr [])]

/-- Response parsing step of `AINavigator.verify_state` (llm.py lines
185-190): strict `json.loads` of the stripped response, `JSONDecodeError`
mapped to `defaultVerifDict`. -/
def verify_state_parse (response : String) : JVal :=
  match jLoads (pyStrip response) with
  | some v => v
  | none => defaultVerifDict

/-- Response parsing step of `AINavigator.get_navigation_plan` (llm.py lines
140-145): strict `json.loads` of the stripped response, `JSONDecodeError`
mapped to `defaultPlanDict`. -/
def navigation_plan_parse (response : String) : JVal :=
  match jLoads (pyStrip response) with
  | some v => v
  | none => defaultPlanDict

/-- Reason codes of the parse failure described by the spec. -/
inductive SpecParseReason where
  | no_json_found : SpecParseReason
  | json_parse_error : SpecParseReason
deriving DecidableEq

/-- Modelled from the spec (not from the source): the parsing strategy the
spec describes — locate the first opening brace and the last closing brace in
the response, slice that substring, attempt strict JSON decoding, and report
`no_json_found` or `json_parse_error` on failure.  Used only to compare the
spec's description with the source's actual parsing step. -/
def specSliceParse (response : String) : Except SpecParseReason JVal :=
  let cs := response.toList
  match List.findIdx? (fun c => c = lbrace) cs,
        List.findIdx? (fun c => c = rbrace) cs.reverse with
  | some i, some jr =>
    let j := cs.length - 1 - jr
    if i ≤ j then
      match jLoads (String.mk ((cs.drop i).take (j - i + 1))) with
      | some v => .ok v
      | none => .error .json_parse_error
    else .error .no_json_found
  | _, _ => .error .no_json_found

example : jLoads "\x7b\"success\": true, \"confidence\": 0.9\x7d" =
    some (.jobj [("success", .jbool true), ("confidence", .jnum 9 (-1))]) := rfl

example : jLoads "note \x7b\"success\": true\x7d end" = none := rfl

example : jLoads "" = none := rfl

example : jLoads " [1, -2.5e1, \"a\", null] " =
    some (.jarr [.jnum 1 0, .jnum (-25) 0, .jstr "a", .jnull]) := rfl

/-! ## Collaborator environment (Playwright page + AINavigator)

The browser session and the language-model-backed navigator are external
collaborators.  Each primitive threads an abstract world state `σ` and
returns its value inside `Except PyErr`, mirroring a Python call that may
raise; `PyErr.timeout` is `PlaywrightTimeoutError`, `PyErr.other` any other
exception (carrying `str(e)`).  The `AINavigator` coroutines `verify_state`
and `get_navigation_plan` catch every exception internally and always return
a value, so their oracles are total; `get_form_fill_plan` and
`verify_form_completion` are invoked by the source but have no definition in
it, so they are modelled from the spec as Plan-Generator/State-Verifier
collaborator oracles with the same shape. -/

/-- A raised Python exception: a Playwright timeout or anything else. -/
inductive PyErr where
  | timeout : PyErr
  | other (msg : String) : PyErr
deriving DecidableEq

/-- `str(e)` for a caught exception. -/
def errMsg : PyErr → String
  | .timeout => "Timeout exceeded"
  | .other m => m

/-- One interactive element as extracted by the page-evaluation snippet in
`get_page_content`. -/
structure ElementInfo where
  tag : String
  type? : Option String
  id? : Option String
  name? : Option String
  placeholder? : Option String
  text? : Option String
  href? : Option String
  classes : List String
  isVisible : Bool
deriving DecidableEq

/-- The page-content dictionary built by `BrowserAutomation.get_page_content`. -/
structure PageContent where
  url : String
  title : String
  text : String
  html : String
  elements : List ElementInfo
deriving DecidableEq

/-- Ghost trace events recorded while a modeled routine runs: waits, sleeps,
the browser operations of `execute_action`, log lines, and one marker per
retry-loop iteration and per readiness wait. -/
inductive Ev where
  | settleRun : Ev
  | netIdle : Ev
  | domLoaded : Ev
  | readyFn : Ev
  | sleep (ms : ℕ) : Ev
  | waitSelector (sel : JVal) (timeoutMs : ℕ) : Ev
  | evalScroll (sel : JVal) : Ev
  | click (sel : JVal) : Ev
  | fillField (sel : JVal) (v : JVal) : Ev
  | press (sel : JVal) (key : String) : Ev
  | goto (url : JVal) : Ev
  | selectOption (sel : JVal) (v : JVal) : Ev
  | attemptStart (n : ℕ) : Ev
  | logWarn (msg : String) : Ev
  | logSelTimeout (sel : JVal) : Ev
  | logActionTimeout (attempt : ℕ) : Ev
  | logError (msg : String) : Ev

/-- The collaborator interface consumed by the modeled core. -/
structure Env (σ : Type) where
  waitNetworkIdle : σ → Except PyErr Unit × σ
  waitDomContent : σ → Except PyErr Unit × σ
  waitReadyFn : σ → Except PyErr Unit × σ
  sleep : ℕ → σ → σ
  pageUrl : σ → Except PyErr String × σ
  pageTitle : σ → Except PyErr String × σ
  evalText : σ → Except PyErr String × σ
  pageHtml : σ → Except PyErr String × σ
  evalElements : σ → Except PyErr (List ElementInfo) × σ
  waitForSelector : JVal → ℕ → σ → Except PyErr (Option Unit) × σ
  evalScroll : JVal → σ → Except PyErr Unit × σ
  click : JVal → σ → Except PyErr Unit × σ
  fill : JVal → JVal → σ → Except PyErr Unit × σ
  press : JVal → String → σ → Except PyErr Unit × σ
  goto : JVal → σ → Except PyErr Unit × σ
  selectOption : JVal → JVal → σ → Except PyErr Unit × σ
  verifyState : PageContent → String → σ → JVal × σ
  getNavPlan : PageContent → String → σ → JVal × σ
  getFormFillPlan : PageContent → JVal → σ → JVal × σ
  verifyFormCompletion : PageContent → JVal → σ → JVal × σ
  nowIso : σ → String

/-- Result of a routine that may raise, with the threaded state and trace. -/
structure WOut (σ : Type) where
  res : Except PyErr Unit
  st : σ
  tr : List Ev

/-- Model of `BrowserAutomation.wait_for_page_load` (browser.py lines 49-74):
network-idle wait, DOM-content wait, readiness predicate poll, then a fixed
2-second settle sleep; a `PlaywrightTimeout` at any stage is caught (warning,
normal return with partial state), any other exception is re-raised. -/
def wait_for_page_load {σ : Type} (env : Env σ) (σ0 : σ) : WOut σ :=
  match env.waitNetworkIdle σ0 with
  | (.error .timeout, σ1) =>
      ⟨.ok (), σ1, [.settleRun, .netIdle, .logWarn "Page load timeout - continuing with partial load"]⟩
  | (.error (.other m), σ1) => ⟨.error (.other m), σ1, [.settleRun, .netIdle]⟩
  | (.ok _, σ1) =>
    match env.waitDomContent σ1 with
    | (.error .timeout, σ2) =>
        ⟨.ok (), σ2, [.settleRun, .netIdle, .domLoaded, .logWarn "Page load timeout - continuing with partial load"]⟩
    | (.error (.other m), σ2) => ⟨.error (.other m), σ2, [.settleRun, .netIdle, .domLoaded]⟩
    | (.ok _, σ2) =>
      match env.waitReadyFn σ2 with
      | (.error .timeout, σ3) =>
          ⟨.ok (), σ3, [.settleRun, .netIdle, .domLoaded, .readyFn, .logWarn "Page load timeout - continuing with partial load"]⟩
      | (.error (.other m), σ3) => ⟨.error (.other m), σ3, [.settleRun, .netIdle, .domLoaded, .readyFn]⟩
      | (.ok _, σ3) =>
          ⟨.ok (), env.sleep 2000 σ3, [.settleRun, .netIdle, .domLoaded, .readyFn, .sleep 2000]⟩

/-- The fallback branch of `get_page_content`'s exception handler: it builds
the degraded snapshot, but reads `self.page.url` again while doing so — if
that read raises, the exception propagates out of `get_page_content`. -/
def gpcFallback {σ : Type} (env : Env σ) (σ0 : σ) : Except PyErr PageContent × σ :=
  match env.pageUrl σ0 with
  | (.ok u, σ1) => (.ok ⟨u, "", "", "", []⟩, σ1)
  | (.error e, σ1) => (.error e, σ1)

/-- Model of `BrowserAutomation.get_page_content` (browser.py lines 275-336):
readiness wait, url/title reads, then text/html/elements sub-extractions each
guarded by their own handler substituting an empty value; any failure before
or during the url/title reads falls into the outer handler `gpcFallback`. -/
def get_page_content {σ : Type} (env : Env σ) (σ0 : σ) : Except PyErr PageContent × σ :=
  match wait_for_page_load env σ0 with
  | ⟨.error _, σ1, _⟩ => gpcFallback env σ1
  | ⟨.ok _, σ1, _⟩ =>
    match env.pageUrl σ1 with
    | (.error _, σ2) => gpcFallback env σ2
    | (.ok u, σ2) =>
      match env.pageTitle σ2 with
      | (.error _, σ3) => gpcFallback env σ3
      | (.ok t, σ3) =>
        let (rtx, σ4) := env.evalText σ3
        let text := match rtx with
                    | .ok s => s
                    | .error _ => ""
        let (rh, σ5) := env.pageHtml σ4
        let html := match rh with
                    | .ok s => s
                    | .error _ => ""
        let (re, σ6) := env.evalElements σ5
        let elems := match re with
                     | .ok l => l
                     | .error _ => []
        (.ok ⟨u, t, text, html, elems⟩, σ6)

/-! ## Action executor (browser.py `execute_action`, lines 338-404)

`execute_action` runs a `while retry_count < 3` loop.  Each iteration body is
wrapped in a `try` that catches only `PlaywrightTimeout` (log the attempt
number, sleep 1 second, retry); the initial selector wait has its own inner
`try` whose timeout handler increments and retries immediately without
sleeping; any other exception reaches the outermost handler, which logs and
makes the function return `False`.  The function therefore never raises. -/

/-- Outcome of one iteration body of the retry loop. -/
inductive IterRes where
  | done : IterRes
  | contA : IterRes
  | contB : IterRes
  | raised (msg : String) : IterRes

/-- Result of `execute_action`: the boolean outcome, threaded state, ghost
trace, and the number of loop iterations that started. -/
structure ExecOut (σ : Type) where
  ok : Bool
  st : σ
  tr : List Ev
  nAttempts : ℕ

/-- The `kind` dispatch of one attempt (browser.py lines 366-393), after the
optional selector wait succeeded: click / fill / wait / navigate / select in
the source's `elif` order, any unrecognized kind falling through to the
post-action waits. -/
def execDispatch {σ : Type} (env : Env σ) (ty sel val : JVal) (σ0 : σ) :
    Except PyErr Unit × σ × List Ev :=
  if pyEqStr ty "click" then
    match env.waitForSelector sel 30000 σ0 with
    | (.error e, σ1) => (.error e, σ1, [.waitSelector sel 30000])
    | (.ok _, σ1) =>
      match env.evalScroll sel σ1 with
      | (.error e, σ2) => (.error e, σ2, [.waitSelector sel 30000, .evalScroll sel])
      | (.ok _, σ2) =>
        let σ3 := env.sleep 500 σ2
        match env.click sel σ3 with
        | (.error e, σ4) =>
            (.error e, σ4, [.waitSelector sel 30000, .evalScroll sel, .sleep 500, .click sel])
        | (.ok _, σ4) =>
            (.ok (), σ4, [.waitSelector sel 30000, .evalScroll sel, .sleep 500, .click sel])
  else if pyEqStr ty "fill" then
    match env.fill sel val σ0 with
    | (.error e, σ1) => (.error e, σ1, [.fillField sel val])
    | (.ok _, σ1) =>
      match env.press sel "Tab" σ1 with
      | (.error e, σ2) => (.error e, σ2, [.fillField sel val, .press sel "Tab"])
      | (.ok _, σ2) => (.ok (), σ2, [.fillField sel val, .press sel "Tab"])
  else if pyEqStr ty "wait" then
    match val with
    | .jstr s =>
      if pyIsDigit s then
        match pyInt? s with
        | some n => (.ok (), env.sleep (1000 * n) σ0, [.sleep (1000 * n)])
        | none =>
            (.error (.other "ValueError: invalid literal for int() with base 10"), σ0, [])
      else (.ok (), env.sleep 1000 σ0, [.sleep 1000])
    | _ => (.error (.other "AttributeError: object has no attribute isdigit"), σ0, [])
  else if pyEqStr ty "navigate" then
    match env.goto val σ0 with
    | (.error e, σ1) => (.error e, σ1, [.goto val])
    | (.ok _, σ1) =>
      let w := wait_for_page_load env σ1
      (w.res, w.st, .goto val :: w.tr)
  else if pyEqStr ty "select" then
    match env.selectOption sel val σ0 with
    | (.error e, σ1) => (.error e, σ1, [.selectOption sel val])
    | (.ok _, σ1) => (.ok (), σ1, [.selectOption sel val])
  else (.ok (), σ0, [])

/-- The iteration body after the dispatch: brief 0.5-second pause, then the
readiness wait; finishing both yields `return True`. -/
def execIterAfter {σ : Type} (env : Env σ) (σ0 : σ) (tr0 : List Ev) :
    IterRes × σ × List Ev :=
  let σ1 := env.sleep 500 σ0
  let w := wait_for_page_load env σ1
  match w.res with
  | .error .timeout => (.contB, w.st, tr0 ++ [.sleep 500] ++ w.tr)
  | .error (.other m) => (.raised m, w.st, tr0 ++ [.sleep 500] ++ w.tr)
  | .ok _ => (.done, w.st, tr0 ++ [.sleep 500] ++ w.tr)

/-- One iteration body of the retry loop (browser.py lines 345-395): extract
`type`/`selector`/`value` from the action dict, run the guarded 5-second
selector-visibility wait when the selector is truthy, dispatch by kind, then
the post-action waits. -/
def execIter {σ : Type} (env : Env σ) (action : JVal) (σ0 : σ) :
    IterRes × σ × List Ev :=
  match pyGetD action "type" .jnull with
  | .error m => (.raised m, σ0, [])
  | .ok ty =>
    match pyGetD action "selector" .jnull with
    | .error m => (.raised m, σ0, [])
    | .ok sel =>
      match pyGetD action "value" (.jstr "") with
      | .error m => (.raised m, σ0, [])
      | .ok val =>
        if pyTruthy sel then
          match env.waitForSelector sel 5000 σ0 with
          | (.error .timeout, σ1) =>
              (.contA, σ1, [.waitSelector sel 5000, .logSelTimeout sel])
          | (.error (.other m), σ1) => (.raised m, σ1, [.waitSelector sel 5000])
          | (.ok none, σ1) => (.contA, σ1, [.waitSelector sel 5000])
          | (.ok (some _), σ1) =>
            match execDispatch env ty sel val σ1 with
            | (.error .timeout, σ2, tr) => (.contB, σ2, .waitSelector sel 5000 :: tr)
            | (.error (.other m), σ2, tr) => (.raised m, σ2, .waitSelector sel 5000 :: tr)
            | (.ok _, σ2, tr) => execIterAfter env σ2 (.waitSelector sel 5000 :: tr)
        else
          match execDispatch env ty sel val σ0 with
          | (.error .timeout, σ2, tr) => (.contB, σ2, tr)
          | (.error (.other m), σ2, tr) => (.raised m, σ2, tr)
          | (.ok _, σ2, tr) => execIterAfter env σ2 tr

/-- The `while retry_count < max_retries` loop, with the iteration budget as
fuel (`3 - retry_count`); the `rc` argument is the current `retry_count`,
used only in the logged attempt message.  Falling out of the loop, or an
uncaught exception reaching the outer handler, returns `False`. -/
def execLoop {σ : Type} (env : Env σ) (action : JVal) : ℕ → ℕ → σ → ExecOut σ
  | 0, _, σ0 => ⟨false, σ0, [], 0⟩
  | fuel + 1, rc, σ0 =>
    match execIter env action σ0 with
    | (.done, σ1, trI) => ⟨true, σ1, .attemptStart rc :: trI, 1⟩
    | (.raised m, σ1, trI) =>
        ⟨false, σ1, .attemptStart rc :: trI ++ [.logError ("Error executing action: " ++ m)], 1⟩
    | (.contA, σ1, trI) =>
        let o := execLoop env action fuel (rc + 1) σ1
        ⟨o.ok, o.st, .attemptStart rc :: trI ++ o.tr, o.nAttempts + 1⟩
    | (.contB, σ1, trI) =>
        let σ2 := env.sleep 1000 σ1
        let o := execLoop env action fuel (rc + 1) σ2
        ⟨o.ok, o.st,
         .attemptStart rc :: trI ++ [.logActionTimeout (rc + 1), .sleep 1000] ++ o.tr,
         o.nAttempts + 1⟩

/-- Model of `BrowserAutomation.execute_action` (browser.py lines 338-404):
the 3-iteration retry loop wrapped in the catch-all handler, so the result is
always a plain boolean — the routine cannot raise. -/
def execute_action {σ : Type} (env : Env σ) (action : JVal) (σ0 : σ) : ExecOut σ :=
  execLoop env action 3 0 σ0

/-- A benign collaborator environment over a trivial world state: every wait
succeeds, every read yields an empty page, every browser operation succeeds,
the verifier reports failure and the planner returns an empty successful
plan.  Used as the base point for concrete runs; individual scenarios
override single fields. -/
def unitEnv : Env Unit where
  waitNetworkIdle := fun _ => (.ok (), ())
  waitDomContent := fun _ => (.ok (), ())
  waitReadyFn := fun _ => (.ok (), ())
  sleep := fun _ _ => ()
  pageUrl := fun _ => (.ok "https://example.test/jobs", ())
  pageTitle := fun _ => (.ok "Jobs", ())
  evalText := fun _ => (.ok "", ())
  pageHtml := fun _ => (.ok "", ())
  evalElements := fun _ => (.ok [], ())
  waitForSelector := fun _ _ _ => (.ok (some ()), ())
  evalScroll := fun _ _ => (.ok (), ())
  click := fun _ _ => (.ok (), ())
  fill := fun _ _ _ => (.ok (), ())
  press := fun _ _ _ => (.ok (), ())
  goto := fun _ _ => (.ok (), ())
  selectOption := fun _ _ _ => (.ok (), ())
  verifyState := fun _ _ _ => (.jobj [("success", .jbool false), ("confidence", .jnum 0 0)], ())
  getNavPlan := fun _ _ _ => (.jobj [("status", .jstr "success"), ("actions", .jarr [])], ())
  getFormFillPlan := fun _ _ _ => (.jobj [("status", .jstr "success"), ("actions", .jarr [])], ())
  verifyFormCompletion := fun _ _ _ => (.jobj [("success", .jbool true)], ())
  nowIso := fun _ => "2025-01-01T00:00:00"

example :
    (execute_action unitEnv (.jobj [("type", .jstr "wait"), ("value", .jstr "2")]) ()).ok
      = true := rfl

example :
    (execute_action unitEnv (.jobj [("type", .jstr "wait"), ("value", .jnum 2 0)]) ()).ok
      = false := rfl

example :
    (execute_action unitEnv (.jobj [("type", .jstr "click"), ("selector", .jstr "#a")]) ()).tr
      = [.attemptStart 0, .waitSelector (.jstr "#a") 5000, .waitSelector (.jstr "#a") 30000,
         .evalScroll (.jstr "#a"), .sleep 500, .click (.jstr "#a"), .sleep 500,
         .settleRun, .netIdle, .domLoaded, .readyFn, .sleep 2000] := rfl

/-! ## Navigation loop controller (browser.py `navigate_with_ai`, lines 78-144)

The loop runs `while current_attempt < max_attempts` with `max_attempts = 5`;
each iteration captures a snapshot, verifies, asks for a plan, executes the
plan's actions (skipping failed ones), re-verifying after each successful
action.  The whole loop sits in a `try` whose handler converts any raised
exception into an error-status result dictionary. -/

/-- `verification.get('success', False)` followed by Python truthiness; the
`Except` layer carries the `AttributeError` raised when the decoded response
is not a dict. -/
def verifySuccess (v : JVal) : Except String Bool :=
  match pyGetD v "success" (.jbool false) with
  | .ok x => .ok (pyTruthy x)
  | .error m => .error m

/-- `plan["status"] == "error"`: direct indexing, then comparison with the
string literal. -/
def planIsError (p : JVal) : Except String Bool :=
  match pyIndex p "status" with
  | .ok s => .ok (pyEqStr s "error")
  | .error m => .error m

/-- `plan.get("actions", [])` followed by iteration. -/
def planActions (p : JVal) : Except String (List JVal) :=
  match pyGetD p "actions" (.jarr []) with
  | .ok v => pyIter v
  | .error m => .error m

/-- The result dictionaries the modeled routines return to their caller. -/
inductive PyResult where
  | navSuccess (message : String) (confidence : JVal) : PyResult
  | planDict (p : JVal) : PyResult
  | errorMsg (message : String) : PyResult
  | formIncomplete (message : String) (missingFields : JVal) : PyResult
  | submitted (message : String) (date : String) : PyResult

/-- Ghost record of one iteration of the navigation loop: the snapshot
captured at the top, the verification response, the plan request (with the
snapshot passed as its argument) if one was issued, and the executed actions
with their boolean outcomes. -/
structure AttemptLog where
  snapshot : PageContent
  verification : JVal
  planned : Option (PageContent × JVal)
  execs : List (JVal × Bool)

/-- Result of running a plan's action list. -/
structure RPOut (σ : Type) where
  res : Except PyErr (Option PyResult)
  st : σ
  execs : List (JVal × Bool)

/-- Result of the navigation loop. -/
structure NavOut (σ : Type) where
  res : Except PyErr PyResult
  st : σ
  attempts : List AttemptLog

/-- The per-plan action loop (browser.py lines 113-133): execute each action;
a false result is logged and skipped; after a successful action wait for the
page to settle, re-capture, re-verify, and short-circuit with a success
result when the target state is reached mid-plan. -/
def runPlanActions {σ : Type} (env : Env σ) (t : String) :
    List JVal → σ → RPOut σ
  | [], σ0 => ⟨.ok none, σ0, []⟩
  | a :: rest, σ0 =>
    let eo := execute_action env a σ0
    match eo.ok with
    | false =>
      let ro := runPlanActions env t rest eo.st
      ⟨ro.res, ro.st, (a, false) :: ro.execs⟩
    | true =>
      match wait_for_page_load env eo.st with
      | ⟨.error e, σ1, _⟩ => ⟨.error e, σ1, [(a, true)]⟩
      | ⟨.ok _, σ1, _⟩ =>
        match get_page_content env σ1 with
        | (.error e, σ2) => ⟨.error e, σ2, [(a, true)]⟩
        | (.ok c, σ2) =>
          let (v, σ3) := env.verifyState c t σ2
          match verifySuccess v with
          | .error m => ⟨.error (.other m), σ3, [(a, true)]⟩
          | .ok true =>
            match pyGetD v "confidence" (.jnum 0 0) with
            | .ok conf =>
                ⟨.ok (some (.navSuccess ("Reached target state: " ++ t) conf)), σ3, [(a, true)]⟩
            | .error m => ⟨.error (.other m), σ3, [(a, true)]⟩
          | .ok false =>
            let ro := runPlanActions env t rest σ3
            ⟨ro.res, ro.st, (a, true) :: ro.execs⟩

/-- The attempt loop of `navigate_with_ai`, with the remaining iteration
budget (`max_attempts - current_attempt`) as fuel.  Exhausting the budget
produces the error result naming the 5-attempt ceiling. -/
def navLoop {σ : Type} (env : Env σ) (t : String) : ℕ → σ → NavOut σ
  | 0, σ0 => ⟨.ok (.errorMsg "Failed to reach target state after 5 attempts"), σ0, []⟩
  | fuel + 1, σ0 =>
    match get_page_content env σ0 with
    | (.error e, σ1) => ⟨.error e, σ1, []⟩
    | (.ok c, σ1) =>
      let (v, σ2) := env.verifyState c t σ1
      match verifySuccess v with
      | .error m => ⟨.error (.other m), σ2, [⟨c, v, none, []⟩]⟩
      | .ok true =>
        match pyGetD v "confidence" (.jnum 0 0) with
        | .ok conf =>
            ⟨.ok (.navSuccess ("Reached target state: " ++ t) conf), σ2, [⟨c, v, none, []⟩]⟩
        | .error m => ⟨.error (.other m), σ2, [⟨c, v, none, []⟩]⟩
      | .ok false =>
        let (p, σ3) := env.getNavPlan c t σ2
        match planIsError p with
        | .error m => ⟨.error (.other m), σ3, [⟨c, v, some (c, p), []⟩]⟩
        | .ok true => ⟨.ok (.planDict p), σ3, [⟨c, v, some (c, p), []⟩]⟩
        | .ok false =>
          match planActions p with
          | .error m => ⟨.error (.other m), σ3, [⟨c, v, some (c, p), []⟩]⟩
          | .ok acts =>
            match runPlanActions env t acts σ3 with
            | ⟨.error e, σ4, execs⟩ => ⟨.error e, σ4, [⟨c, v, some (c, p), execs⟩]⟩
            | ⟨.ok (some r), σ4, execs⟩ => ⟨.ok r, σ4, [⟨c, v, some (c, p), execs⟩]⟩
            | ⟨.ok none, σ4, execs⟩ =>
              let o := navLoop env t fuel σ4
              ⟨o.res, o.st, ⟨c, v, some (c, p), execs⟩ :: o.attempts⟩

/-- Model of `BrowserAutomation.navigate_with_ai` (browser.py lines 78-144):
the 5-attempt loop wrapped in the catch-all handler that converts any raised
exception `e` into the result `\x7b"status": "error", "message": str(e)\x7d`.
The `Except` layer of the result type is kept so that the (non-)propagation
of raised errors is expressible: by construction the returned `res` is always
`Except.ok`. -/
def navigate_with_ai {σ : Type} (env : Env σ) (t : String) (σ0 : σ) : NavOut σ :=
  let o := navLoop env t 5 σ0
  match o.res with
  | .ok r => ⟨.ok r, o.st, o.attempts⟩
  | .error e => ⟨.ok (.errorMsg (errMsg e)), o.st, o.attempts⟩

example :
    (navigate_with_ai unitEnv "job search page" ()).res
      = .ok (.errorMsg "Failed to reach target state after 5 attempts") := rfl

example : (navigate_with_ai unitEnv "job search page" ()).attempts.length = 5 := rfl

/-! ## Form submission (browser.py `submit_application_form`, lines 205-273)

A linear sequence: verify the page is an application form, request a
form-fill plan, execute every action aborting on the first failure, settle,
verify form completion, click the plan's submit selector, settle, report
success.  `AINavigator.get_form_fill_plan` and
`AINavigator.verify_form_completion` have call sites but no definition in the
repository; they are modelled from the spec as collaborator oracles (spec
sections 4.3 and 4.4). -/

/-- Python `str()` of an embedded value, as interpolated into the
`f"Failed to execute form action: \x7baction\x7d"` message.  Scalars follow
Python rendering (`None`, `True`, quoted strings); numbers are rendered from
the mantissa/exponent pair.  Used only symbolically by the theorems. -/
def pyStr : JVal → String
  | .jnull => "None"
  | .jbool b => if b then "True" else "False"
  | .jnum m e => if e = 0 then toString m else toString m ++ "e" ++ toString e
  | .jstr s => squote ++ s ++ squote
  | .jarr xs => "[" ++ String.intercalate ", " (xs.attach.map (fun x => pyStr x.1)) ++ "]"
  | .jobj kvs =>
      lbrace.toString ++
        String.intercalate ", "
          (kvs.attach.map (fun kv => squote ++ kv.1.1 ++ squote ++ ": " ++ pyStr kv.1.2)) ++
        rbrace.toString
termination_by v => sizeOf v
decreasing_by
  all_goals simp_wf
  all_goals try (have hx := List.sizeOf_lt_of_mem x.2)
  all_goals try
    (have h1 := List.sizeOf_lt_of_mem kv.2
     have h2 : sizeOf kv.1.2 < sizeOf kv.1 := by
       obtain ⟨⟨a, b⟩, _⟩ := kv
       simp
       try omega)
  all_goals omega

/-- The message of the abort-on-first-failure branch, naming the failing
action (`f"Failed to execute form action: \x7baction\x7d"`). -/
def failedActionMsg (a : JVal) : String :=
  "Failed to execute form action: " ++ pyStr a

/-- Result of the form-fill routine, with the ghost list of every
`execute_action` invocation it made (the submit click included). -/
structure FormOut (σ : Type) where
  result : PyResult
  st : σ
  execs : List (JVal × Bool)

/-- The form-filling action loop (browser.py lines 226-233): execute each
action in order and stop at the first failure, reporting the failing
action. -/
def runFormActions {σ : Type} (env : Env σ) :
    List JVal → σ → Option JVal × σ × List (JVal × Bool)
  | [], σ0 => (none, σ0, [])
  | a :: rest, σ0 =>
    let eo := execute_action env a σ0
    match eo.ok with
    | true =>
      let (f, σ1, ex) := runFormActions env rest eo.st
      (f, σ1, (a, true) :: ex)
    | false => (some a, eo.st, [(a, false)])

/-- The submit action dictionary built at browser.py lines 250-254. -/
def submitAction (sel : JVal) : JVal :=
  .jobj [("type", .jstr "click"), ("selector", sel),
         ("description", .jstr "Submit application form")]

/-- Model of `BrowserAutomation.submit_application_form` (browser.py lines
205-273): verify the form page, obtain the form-fill plan, run the actions
aborting on first failure, settle, verify completion, click the submit
selector, settle, report success; the outer handler converts any raised
exception into an error-status result. -/
def submit_application_form {σ : Type} (env : Env σ) (appData : JVal) (σ0 : σ) :
    FormOut σ :=
  match get_page_content env σ0 with
  | (.error e, σ1) => ⟨.errorMsg (errMsg e), σ1, []⟩
  | (.ok c, σ1) =>
    let (fv, σ2) := env.verifyState c "application_form" σ1
    match verifySuccess fv with
    | .error m => ⟨.errorMsg m, σ2, []⟩
    | .ok false => ⟨.errorMsg "Not on application form page", σ2, []⟩
    | .ok true =>
      let (fp, σ3) := env.getFormFillPlan c appData σ2
      match planIsError fp with
      | .error m => ⟨.errorMsg m, σ3, []⟩
      | .ok true => ⟨.planDict fp, σ3, []⟩
      | .ok false =>
        match planActions fp with
        | .error m => ⟨.errorMsg m, σ3, []⟩
        | .ok acts =>
          match runFormActions env acts σ3 with
          | (some failedAct, σ4, execs) => ⟨.errorMsg (failedActionMsg failedAct), σ4, execs⟩
          | (none, σ4, execs) =>
            match wait_for_page_load env σ4 with
            | ⟨.error e, σ5, _⟩ => ⟨.errorMsg (errMsg e), σ5, execs⟩
            | ⟨.ok _, σ5, _⟩ =>
              match get_page_content env σ5 with
              | (.error e, σ6) => ⟨.errorMsg (errMsg e), σ6, execs⟩
              | (.ok c2, σ6) =>
                let (fc, σ7) := env.verifyFormCompletion c2 appData σ6
                match verifySuccess fc with
                | .error m => ⟨.errorMsg m, σ7, execs⟩
                | .ok false =>
                  match pyGetD fc "missing_fields" (.jarr []) with
                  | .ok mf => ⟨.formIncomplete "Form validation failed" mf, σ7, execs⟩
                  | .error m => ⟨.errorMsg m, σ7, execs⟩
                | .ok true =>
                  match pyGetD fp "submit_selector" .jnull with
                  | .error m => ⟨.errorMsg m, σ7, execs⟩
                  | .ok sel =>
                    let eo := execute_action env (submitAction sel) σ7
                    match eo.ok with
                    | false =>
                        ⟨.errorMsg "Failed to submit form", eo.st, execs ++ [(submitAction sel, false)]⟩
                    | true =>
                      match wait_for_page_load env eo.st with
                      | ⟨.error e, σ8, _⟩ =>
                          ⟨.errorMsg (errMsg e), σ8, execs ++ [(submitAction sel, true)]⟩
                      | ⟨.ok _, σ8, _⟩ =>
                          ⟨.submitted "Application submitted successfully" (env.nowIso σ8), σ8,
                           execs ++ [(submitAction sel, true)]⟩

/-! ## Claim C2 — model-response parsing -/

/-- C2 counterexample: the claim says the parsing step locates the first
opening brace and the last closing brace, slices, and decodes, so that a
prose-wrapped JSON object is returned "exactly".  On the response
`note \x7b"success": true\x7d end` the spec's slicing parse does return the
embedded object, but the source's actual step (`json.loads(response.strip())`
in both `verify_state` and `get_navigation_plan`) fails and returns the
safe default dictionaries instead. -/
theorem C2_embedded_json_counterexample :
    specSliceParse "note \x7b\"success\": true\x7d end" = .ok (.jobj [("success", .jbool true)])
    ∧ verify_state_parse "note \x7b\"success\": true\x7d end" = defaultVerifDict
    ∧ navigation_plan_parse "note \x7b\"success\": true\x7d end" = defaultPlanDict
    ∧ defaultVerifDict ≠ .jobj [("success", .jbool true)]
    ∧ defaultPlanDict ≠ .jobj [("success", .jbool true)] := by
  refine ⟨rfl, rfl, rfl, ?_, ?_⟩
  · intro h
    simp [defaultVerifDict] at h
  · intro h
    simp [defaultPlanDict] at h

/-- C2 (amended): for every model response, the parsing step of
`verify_state` and of `get_navigation_plan` strips surrounding whitespace and
attempts strict JSON decoding of the whole response; when the entire stripped
response is valid JSON the decoded value is returned exactly, otherwise the
caller's safe default result is returned (failure verification with the
`parsing_error` marker, error-status plan with empty actions) — the step is a
total function, so it never raises.  JSON embedded inside prose is not
extracted. -/
theorem C2_parse_total_amended (response : String) :
    ((∃ j, jLoads (pyStrip response) = some j ∧ verify_state_parse response = j)
      ∨ (jLoads (pyStrip response) = none ∧ verify_state_parse response = defaultVerifDict))
    ∧ ((∃ j, jLoads (pyStrip response) = some j ∧ navigation_plan_parse response = j)
      ∨ (jLoads (pyStrip response) = none ∧ navigation_plan_parse response = defaultPlanDict)) := by
  constructor
  · cases h : jLoads (pyStrip response) with
    | some j => exact Or.inl ⟨j, rfl, by simp [verify_state_parse, h]⟩
    | none => exact Or.inr ⟨rfl, by simp [verify_state_parse, h]⟩
  · cases h : jLoads (pyStrip response) with
    | some j => exact Or.inl ⟨j, rfl, by simp [navigation_plan_parse, h]⟩
    | none => exact Or.inr ⟨rfl, by simp [navigation_plan_parse, h]⟩

/-! ## Claim C8 — error propagation out of the navigation loop -/

/-- A collaborator environment in which the browser page handle is gone:
every page interaction raises. -/
def pageGoneEnv : Env Unit :=
  { unitEnv with
    waitNetworkIdle := fun _ => (.error (.other "Page has been closed"), ())
    pageUrl := fun _ => (.error (.other "Page has been closed"), ()) }

/-- C8 counterexample: the claim says a page-handle-invalid error arising
during `navigate_with_ai` is re-raised to the caller.  In the source the
loop's catch-all handler converts it into an error-status result dictionary:
with every page read raising "Page has been closed", the call returns the
dictionary normally and does not propagate the error. -/
theorem C8_caught_not_raised_counterexample :
    (navigate_with_ai pageGoneEnv "application form page" ()).res
        = .ok (.errorMsg "Page has been closed")
    ∧ (navigate_with_ai pageGoneEnv "application form page" ()).res
        ≠ .error (.other "Page has been closed") := by
  constructor
  · rfl
  · intro h
    rw [show (navigate_with_ai pageGoneEnv "application form page" ()).res
          = .ok (.errorMsg "Page has been closed") from rfl] at h
    exact Except.noConfusion h

/-- C8 (amended): `navigate_with_ai` never re-raises — its catch-all handler
converts every error raised during the loop (including a page-handle-invalid
error) into an error-status result carrying the error's message, so the call
always returns a result value. -/
theorem C8_navigate_never_raises {σT : Type} (env : Env σT) (t : String) (σ0 : σT) :
    ∃ r, (navigate_with_ai env t σ0).res = Except.ok r
      ∧ ((navLoop env t 5 σ0).res = Except.ok r
          ∨ ∃ e, (navLoop env t 5 σ0).res = Except.error e ∧ r = .errorMsg (errMsg e)) := by
  unfold navigate_with_ai
  rcases h : (navLoop env t 5 σ0).res with e | r
  · exact ⟨.errorMsg (errMsg e), by simp [h], Or.inr ⟨e, rfl, rfl⟩⟩
  · exact ⟨r, by simp [h], Or.inl rfl⟩

/-! ## Claims C3 and C7 — first-verification success, plan-error termination -/

/-- C3: whenever the first state-verification call of `navigate_with_ai`
reports success, the function returns a success result carrying exactly the
confidence value of that verification response, records a single attempt,
and issues zero plan requests (no `planned` entry) and zero action
executions. -/
theorem C3_first_verification_success {σT : Type} (env : Env σT) (t : String)
    (σ0 σ1 σ2 : σT) (c0 v0 conf : _)
    (hcap : get_page_content env σ0 = (.ok c0, σ1))
    (hver : env.verifyState c0 t σ1 = (v0, σ2))
    (hsucc : verifySuccess v0 = .ok true)
    (hconf : pyGetD v0 "confidence" (.jnum 0 0) = .ok conf) :
    navigate_with_ai env t σ0 =
      ⟨.ok (.navSuccess ("Reached target state: " ++ t) conf), σ2, [⟨c0, v0, none, []⟩]⟩ := by
  simp only [navigate_with_ai, show (5 : ℕ) = 4 + 1 from rfl, navLoop, hcap, hver, hsucc, hconf]

/-- C7: whenever, in an iteration of `navigate_with_ai`, verification fails
and the plan generator returns a plan whose `status` is `"error"`, the loop
terminates immediately, returning that plan dictionary verbatim (so its
`message` is returned unchanged); the run records exactly one attempt with
exactly one plan request and zero action executions. -/
theorem C7_plan_error_terminal {σT : Type} (env : Env σT) (t : String)
    (σ0 σ1 σ2 σ3 : σT) (c0 v0 p : _)
    (hcap : get_page_content env σ0 = (.ok c0, σ1))
    (hver : env.verifyState c0 t σ1 = (v0, σ2))
    (hfail : verifySuccess v0 = .ok false)
    (hplan : env.getNavPlan c0 t σ2 = (p, σ3))
    (herr : planIsError p = .ok true) :
    navigate_with_ai env t σ0 = ⟨.ok (.planDict p), σ3, [⟨c0, v0, some (c0, p), []⟩]⟩ := by
  simp only [navigate_with_ai, show (5 : ℕ) = 4 + 1 from rfl, navLoop, hcap, hver, hfail,
    hplan, herr]

/-- The snapshot `unitEnv`-based environments capture. -/
def unitContent : PageContent := ⟨"https://example.test/jobs", "Jobs", "", "", []⟩

/-- Environment whose verifier immediately reports success with
confidence 0.9. -/
def c3Env : Env Unit :=
  { unitEnv with
    verifyState := fun _ _ _ =>
      (.jobj [("success", .jbool true), ("confidence", .jnum 9 (-1))], ()) }

/-- Witness for `C3_first_verification_success` at a concrete environment:
the call returns the success result with the mocked confidence 0.9 and no
plan request. -/
theorem C3_witness :
    navigate_with_ai c3Env "job search page" () =
      ⟨.ok (.navSuccess "Reached target state: job search page" (.jnum 9 (-1))), (),
       [⟨unitContent, .jobj [("success", .jbool true), ("confidence", .jnum 9 (-1))], none, []⟩]⟩ :=
  C3_first_verification_success c3Env "job search page" () () ()
    unitContent (.jobj [("success", .jbool true), ("confidence", .jnum 9 (-1))])
    (.jnum 9 (-1)) rfl rfl rfl rfl

/-- The error-status plan dictionary used by the C7 witness environment. -/
def c7Plan : JVal :=
  .jobj [("status", .jstr "error"), ("message", .jstr "Invalid plan format"),
         ("actions", .jarr [])]

/-- Environment whose plan generator returns an error-status plan. -/
def c7Env : Env Unit :=
  { unitEnv with getNavPlan := fun _ _ _ => (c7Plan, ()) }

/-- Witness for `C7_plan_error_terminal` at a concrete environment: the loop
returns the error plan verbatim after a single attempt with one plan request
and no action execution. -/
theorem C7_witness :
    navigate_with_ai c7Env "job search page" () =
      ⟨.ok (.planDict c7Plan), (),
       [⟨unitContent, .jobj [("success", .jbool false), ("confidence", .jnum 0 0)],
         some (unitContent, c7Plan), []⟩]⟩ :=
  C7_plan_error_terminal c7Env "job search page" () () () ()
    unitContent (.jobj [("success", .jbool false), ("confidence", .jnum 0 0)]) c7Plan
    rfl rfl rfl rfl rfl

/-! ## Claim C6 — totality of the page-content capture -/

/-- C6 counterexample: the claim says that when even url/title cannot be read
the capture returns a snapshot with empty url/title instead of propagating
the failure.  In the source, the exception handler of `get_page_content`
re-reads `self.page.url` while building its fallback dictionary, so with the
page handle gone the re-read raises again and the error propagates out of
`get_page_content`. -/
theorem C6_capture_raises_counterexample :
    get_page_content pageGoneEnv () = (.error (.other "Page has been closed"), ())
    ∧ get_page_content pageGoneEnv () ≠ (.ok ⟨"", "", "", "", []⟩, ()) := by
  constructor
  · rfl
  · intro h
    rw [show get_page_content pageGoneEnv ()
          = (.error (.other "Page has been closed"), ()) from rfl] at h
    exact Except.noConfusion (congrArg Prod.fst h)

/-- C6 (amended): `get_page_content` substitutes an empty value for exactly
the sub-extractions (text, html, elements) that fail, keeping the url/title
it read; when the readiness wait or the url/title reads fail, it falls back
to a snapshot whose url is re-read from the page and whose other fields are
empty; and only when that url re-read itself fails does the error propagate
out of the capture. -/
theorem C6_capture_amended {σT : Type} (env : Env σT) :
    (∀ (σ0 σ1 σ2 σ3 σ4 σ5 σ6 : σT) (tr : List Ev) (u t h : String) (e1 e2 : PyErr),
      wait_for_page_load env σ0 = ⟨.ok (), σ1, tr⟩ →
      env.pageUrl σ1 = (.ok u, σ2) →
      env.pageTitle σ2 = (.ok t, σ3) →
      env.evalText σ3 = (.error e1, σ4) →
      env.pageHtml σ4 = (.ok h, σ5) →
      env.evalElements σ5 = (.error e2, σ6) →
      get_page_content env σ0 = (.ok ⟨u, t, "", h, []⟩, σ6))
    ∧ (∀ (σ0 σ1 σ2 σ3 σ4 : σT) (tr : List Ev) (u u2 : String) (e : PyErr),
      wait_for_page_load env σ0 = ⟨.ok (), σ1, tr⟩ →
      env.pageUrl σ1 = (.ok u, σ2) →
      env.pageTitle σ2 = (.error e, σ3) →
      env.pageUrl σ3 = (.ok u2, σ4) →
      get_page_content env σ0 = (.ok ⟨u2, "", "", "", []⟩, σ4))
    ∧ (∀ (σ0 σ1 σ2 σ3 σ4 : σT) (tr : List Ev) (u : String) (e e2 : PyErr),
      wait_for_page_load env σ0 = ⟨.ok (), σ1, tr⟩ →
      env.pageUrl σ1 = (.ok u, σ2) →
      env.pageTitle σ2 = (.error e, σ3) →
      env.pageUrl σ3 = (.error e2, σ4) →
      get_page_content env σ0 = (.error e2, σ4)) := by
  refine ⟨?_, ?_, ?_⟩
  · intro σ0 σ1 σ2 σ3 σ4 σ5 σ6 tr u t h e1 e2 hw hu ht htx hh he
    simp only [get_page_content, hw, hu, ht, htx, hh, he]
  · intro σ0 σ1 σ2 σ3 σ4 tr u u2 e hw hu ht hu2
    simp only [get_page_content, gpcFallback, hw, hu, ht, hu2]
  · intro σ0 σ1 σ2 σ3 σ4 tr u e e2 hw hu ht hu2
    simp only [get_page_content, gpcFallback, hw, hu, ht, hu2]

/-- Environment whose text and element extractions fail. -/
def textFailEnv : Env Unit :=
  { unitEnv with
    evalText := fun _ => (.error (.other "Execution context was destroyed"), ())
    evalElements := fun _ => (.error (.other "Execution context was destroyed"), ()) }

/-- Environment whose title read fails while the url read still works. -/
def titleFailEnv : Env Unit :=
  { unitEnv with pageTitle := fun _ => (.error (.other "Target closed"), ()) }

/-- Environment over a counting state whose url read succeeds on the first
call and raises on every later call, while the title read always raises. -/
def urlFlakyEnv : Env ℕ where
  waitNetworkIdle := fun n => (.ok (), n)
  waitDomContent := fun n => (.ok (), n)
  waitReadyFn := fun n => (.ok (), n)
  sleep := fun _ n => n
  pageUrl := fun n => if n = 0 then (.ok "https://example.test/jobs", 1)
                      else (.error (.other "Page has been closed"), n)
  pageTitle := fun n => (.error (.other "Target closed"), n)
  evalText := fun n => (.ok "", n)
  pageHtml := fun n => (.ok "", n)
  evalElements := fun n => (.ok [], n)
  waitForSelector := fun _ _ n => (.ok (some ()), n)
  evalScroll := fun _ n => (.ok (), n)
  click := fun _ n => (.ok (), n)
  fill := fun _ _ n => (.ok (), n)
  press := fun _ _ n => (.ok (), n)
  goto := fun _ n => (.ok (), n)
  selectOption := fun _ _ n => (.ok (), n)
  verifyState := fun _ _ n => (.jobj [("success", .jbool false)], n)
  getNavPlan := fun _ _ n => (.jobj [("status", .jstr "success"), ("actions", .jarr [])], n)
  getFormFillPlan := fun _ _ n => (.jobj [("status", .jstr "success"), ("actions", .jarr [])], n)
  verifyFormCompletion := fun _ _ n => (.jobj [("success", .jbool true)], n)
  nowIso := fun _ => "2025-01-01T00:00:00"

/-- Witness for `C6_capture_amended`: the three branches evaluated at
concrete environments — per-field substitution, fallback with the re-read
url, and propagation. -/
theorem C6_witness :
    get_page_content textFailEnv () = (.ok ⟨"https://example.test/jobs", "Jobs", "", "", []⟩, ())
    ∧ get_page_content titleFailEnv ()
        = (.ok ⟨"https://example.test/jobs", "", "", "", []⟩, ())
    ∧ get_page_content urlFlakyEnv 0 = (.error (.other "Page has been closed"), 1) := by
  refine ⟨?_, ?_, ?_⟩
  · exact (C6_capture_amended textFailEnv).1 () () () () () () () _ _ _ ""
      (.other "Execution context was destroyed") (.other "Execution context was destroyed")
      rfl rfl rfl rfl rfl rfl
  · exact (C6_capture_amended titleFailEnv).2.1 () () () () () _ _ _
      (.other "Target closed") rfl rfl rfl rfl
  · exact (C6_capture_amended urlFlakyEnv).2.2 0 0 1 1 1 _ _
      (.other "Target closed") (.other "Page has been closed") rfl rfl rfl rfl

/-! ## Claims C9 and C10 — the `wait` kind and unrecognized kinds -/

/-- Trace predicate: a sleep of exactly `ms` milliseconds. -/
def isSleepMs (ms : ℕ) : Ev → Bool
  | .sleep n => n == ms
  | _ => false

/-- Trace predicate: the start of a retry-loop iteration. -/
def isAttemptStart : Ev → Bool
  | .attemptStart _ => true
  | _ => false

/-- Trace predicate: the logged warning for a selector-wait timeout. -/
def isSelTimeoutLog : Ev → Bool
  | .logSelTimeout _ => true
  | _ => false

/-- Trace predicate: the logged warning for an action timeout. -/
def isActionTimeoutLog : Ev → Bool
  | .logActionTimeout _ => true
  | _ => false

/-- Trace predicate: a readiness-wait run. -/
def isSettleRun : Ev → Bool
  | .settleRun => true
  | _ => false

/-- Trace predicate: a browser operation performed for an action kind (click,
fill, focus-advance keystroke, navigation, option selection, scroll). -/
def isBrowserActionEv : Ev → Bool
  | .click _ => true
  | .fillField _ _ => true
  | .press _ _ => true
  | .goto _ => true
  | .selectOption _ _ => true
  | .evalScroll _ => true
  | _ => false

/-- On an environment whose readiness stages all succeed without changing
state and whose sleeps are state-invariant, the readiness wait succeeds and
leaves the state unchanged. -/
theorem wait_for_page_load_ok {σT : Type} (env : Env σT)
    (hnet : ∀ σ, env.waitNetworkIdle σ = (.ok (), σ))
    (hdom : ∀ σ, env.waitDomContent σ = (.ok (), σ))
    (hfn : ∀ σ, env.waitReadyFn σ = (.ok (), σ))
    (hsleep : ∀ n σ, env.sleep n σ = σ) (σ0 : σT) :
    wait_for_page_load env σ0
      = ⟨.ok (), σ0, [.settleRun, .netIdle, .domLoaded, .readyFn, .sleep 2000]⟩ := by
  simp only [wait_for_page_load, hnet, hdom, hfn, hsleep]

/-- The action dictionary `\x7b"type": "wait", "value": v\x7d`. -/
def waitAction (v : JVal) : JVal := .jobj [("type", .jstr "wait"), ("value", v)]

/-- C9 counterexample: the claim says a `wait` action whose value is not a
valid non-negative integer — including a non-string value — pauses for the
default 1 second and completes successfully.  For the non-string value `2`
(a JSON number), `value.isdigit()` raises `AttributeError`, the outer
handler catches it, and `execute_action` returns `False` without any
1-second pause. -/
theorem C9_nonstring_wait_counterexample :
    (execute_action unitEnv (waitAction (.jnum 2 0)) ()).ok = false
    ∧ ((execute_action unitEnv (waitAction (.jnum 2 0)) ()).tr.countP (isSleepMs 1000)) = 0 :=
  ⟨rfl, rfl⟩

/-- Bridge identity for the `wait` dispatch on a string value: the branch
reduces to the isdigit test followed by the `int()` conversion. -/
theorem execDispatch_wait_str {σT : Type} (env : Env σT) (sel : JVal) (s : String) (σ0 : σT) :
    execDispatch env (.jstr "wait") sel (.jstr s) σ0
      = if pyIsDigit s then
          match pyInt? s with
          | some n => (.ok (), env.sleep (1000 * n) σ0, [.sleep (1000 * n)])
          | none =>
              (.error (.other "ValueError: invalid literal for int() with base 10"), σ0, [])
        else (.ok (), env.sleep 1000 σ0, [.sleep 1000]) := rfl

/-- Bridge identity for one iteration on a `wait` action (selector absent,
hence falsy): the iteration is the dispatch followed by the post-action
waits. -/
theorem execIter_wait_bridge {σT : Type} (env : Env σT) (v : JVal) (σ0 : σT) :
    execIter env (waitAction v) σ0
      = (match execDispatch env (.jstr "wait") .jnull v σ0 with
         | (.error .timeout, σ2, tr) => (.contB, σ2, tr)
         | (.error (.other m), σ2, tr) => (.raised m, σ2, tr)
         | (.ok _, σ2, tr) => execIterAfter env σ2 tr) := rfl

/-- C9 (amended): a `wait` action whose value is a string that is not made
of digit characters (`isdigit` false) pauses for the default 1 second and
completes successfully; a `wait` action whose string value consists of digit
characters that are not all decimal digits (such as the superscript "²")
makes `int()` raise `ValueError`, so the action returns `False` with no
pause; and a `wait` action whose value is not a string makes the digit test
itself raise `AttributeError`, likewise returning `False` with no pause. -/
theorem C9_wait_default_amended {σT : Type} (env : Env σT) :
    (∀ (s : String) (σ0 : σT),
      pyIsDigit s = false →
      (∀ σ, env.waitNetworkIdle σ = (.ok (), σ)) →
      (∀ σ, env.waitDomContent σ = (.ok (), σ)) →
      (∀ σ, env.waitReadyFn σ = (.ok (), σ)) →
      (∀ n σ, env.sleep n σ = σ) →
      execute_action env (waitAction (.jstr s)) σ0
        = ⟨true, σ0,
           [.attemptStart 0, .sleep 1000, .sleep 500,
            .settleRun, .netIdle, .domLoaded, .readyFn, .sleep 2000], 1⟩)
    ∧ (∀ (s : String) (σ0 : σT),
      pyIsDigit s = true →
      pyInt? s = none →
      execute_action env (waitAction (.jstr s)) σ0
        = ⟨false, σ0,
           [.attemptStart 0,
            .logError
              "Error executing action: ValueError: invalid literal for int() with base 10"],
           1⟩)
    ∧ (∀ (v : JVal) (σ0 : σT),
      jIsStr v = false →
      execute_action env (waitAction v) σ0
        = ⟨false, σ0,
           [.attemptStart 0,
            .logError "Error executing action: AttributeError: object has no attribute isdigit"],
           1⟩) := by
  refine ⟨?_, ?_, ?_⟩
  · intro s σ0 hs hnet hdom hfn hsleep
    have hw := wait_for_page_load_ok env hnet hdom hfn hsleep
    have hd : execDispatch env (.jstr "wait") .jnull (.jstr s) σ0
        = (.ok (), env.sleep 1000 σ0, [.sleep 1000]) := by
      rw [execDispatch_wait_str, if_neg (by simp [hs])]
    have hiter : execIter env (waitAction (.jstr s)) σ0
        = (.done, σ0,
           [.sleep 1000, .sleep 500, .settleRun, .netIdle, .domLoaded, .readyFn, .sleep 2000]) := by
      rw [execIter_wait_bridge, hd, hsleep]
      simp only [execIterAfter, hsleep, hw]
      rfl
    simp only [execute_action, show (3 : ℕ) = 2 + 1 from rfl, execLoop, hiter]
  · intro s σ0 hs hint
    have hd : execDispatch env (.jstr "wait") .jnull (.jstr s) σ0
        = (.error (.other "ValueError: invalid literal for int() with base 10"), σ0, []) := by
      rw [execDispatch_wait_str]
      simp [hs, hint]
    have hiter : execIter env (waitAction (.jstr s)) σ0
        = (.raised "ValueError: invalid literal for int() with base 10", σ0, []) := by
      rw [execIter_wait_bridge, hd]
    simp only [execute_action, show (3 : ℕ) = 2 + 1 from rfl, execLoop, hiter,
      List.nil_append]
    rfl
  · intro v σ0 hv
    cases v with
    | jstr s => simp [jIsStr] at hv
    | jnull => rfl
    | jbool b => rfl
    | jnum m e => rfl
    | jarr xs => rfl
    | jobj kvs => rfl

/-- Witness for `C9_wait_default_amended`: at the benign environment, a
`wait` with the non-digit string value `"abc"` succeeds after the default
1-second pause; a `wait` with the digit-but-not-decimal value `"²"` fails
with no pause; a `wait` with value `null` fails with no pause. -/
theorem C9_witness :
    execute_action unitEnv (waitAction (.jstr "abc")) ()
      = ⟨true, (),
         [.attemptStart 0, .sleep 1000, .sleep 500,
          .settleRun, .netIdle, .domLoaded, .readyFn, .sleep 2000], 1⟩
    ∧ execute_action unitEnv (waitAction (.jstr "²")) ()
      = ⟨false, (),
         [.attemptStart 0,
          .logError
            "Error executing action: ValueError: invalid literal for int() with base 10"],
         1⟩
    ∧ execute_action unitEnv (waitAction .jnull) ()
      = ⟨false, (),
         [.attemptStart 0,
          .logError "Error executing action: AttributeError: object has no attribute isdigit"],
         1⟩ :=
  ⟨(C9_wait_default_amended unitEnv).1 "abc" () rfl (fun _ => rfl) (fun _ => rfl)
     (fun _ => rfl) (fun _ _ => rfl),
   (C9_wait_default_amended unitEnv).2.1 "²" () rfl rfl,
   (C9_wait_default_amended unitEnv).2.2 .jnull () rfl⟩

/-- C10: for every action whose kind is none of click/fill/select/navigate/
wait (for example `upload`), `execute_action` performs no browser operation
for that kind — provided any selector wait succeeds (or no truthy selector is
present) — yet still runs the post-action settle wait (the 0.5-second pause
and the readiness wait) and returns `True`, reporting the unrecognized action
as a successful execution in a single attempt. -/
theorem C10_unknown_kind_succeeds {σT : Type} (env : Env σT) (act tv sv vv : JVal) (σ0 : σT)
    (htype : pyGetD act "type" .jnull = .ok tv)
    (hsel : pyGetD act "selector" .jnull = .ok sv)
    (hval : pyGetD act "value" (.jstr "") = .ok vv)
    (hc : pyEqStr tv "click" = false) (hf : pyEqStr tv "fill" = false)
    (hwt : pyEqStr tv "wait" = false) (hn : pyEqStr tv "navigate" = false)
    (hse : pyEqStr tv "select" = false)
    (hwsel : pyTruthy sv = false ∨ ∀ n σ, env.waitForSelector sv n σ = (.ok (some ()), σ))
    (hnet : ∀ σ, env.waitNetworkIdle σ = (.ok (), σ))
    (hdom : ∀ σ, env.waitDomContent σ = (.ok (), σ))
    (hfn : ∀ σ, env.waitReadyFn σ = (.ok (), σ))
    (hsleep : ∀ n σ, env.sleep n σ = σ) :
    ∃ tr, execute_action env act σ0 = ⟨true, σ0, tr, 1⟩
      ∧ tr.countP isBrowserActionEv = 0
      ∧ tr.countP (isSleepMs 500) = 1
      ∧ tr.countP isSettleRun = 1 := by
  have hw := wait_for_page_load_ok env hnet hdom hfn hsleep
  have hd : ∀ σ, execDispatch env tv sv vv σ = (.ok (), σ, []) := by
    intro σ
    simp [execDispatch, hc, hf, hwt, hn, hse]
  have hafter : ∀ tr0, execIterAfter env σ0 tr0
      = (.done, σ0,
         tr0 ++ [.sleep 500] ++ [.settleRun, .netIdle, .domLoaded, .readyFn, .sleep 2000]) := by
    intro tr0
    simp only [execIterAfter, hsleep, hw]
  cases hft : pyTruthy sv with
  | false =>
    have hiter : execIter env act σ0
        = (.done, σ0, [.sleep 500, .settleRun, .netIdle, .domLoaded, .readyFn, .sleep 2000]) := by
      simp only [execIter, htype, hsel, hval, hft, Bool.false_eq_true, if_false, hd]
      simp [hafter]
    refine ⟨[.attemptStart 0, .sleep 500, .settleRun, .netIdle, .domLoaded, .readyFn, .sleep 2000],
      ?_, rfl, rfl, rfl⟩
    simp only [execute_action, show (3 : ℕ) = 2 + 1 from rfl, execLoop, hiter]
  | true =>
    have hok : ∀ n σ, env.waitForSelector sv n σ = (.ok (some ()), σ) := by
      rcases hwsel with hfalsy | hok
      · rw [hfalsy] at hft
        cases hft
      · exact hok
    have hiter : execIter env act σ0
        = (.done, σ0,
           [.waitSelector sv 5000, .sleep 500, .settleRun, .netIdle, .domLoaded, .readyFn,
            .sleep 2000]) := by
      simp only [execIter, htype, hsel, hval, hft, if_true, hok, hd]
      simp [hafter]
    refine ⟨[.attemptStart 0, .waitSelector sv 5000, .sleep 500, .settleRun, .netIdle,
      .domLoaded, .readyFn, .sleep 2000], ?_, rfl, rfl, rfl⟩
    simp only [execute_action, show (3 : ℕ) = 2 + 1 from rfl, execLoop, hiter]

/-- The unrecognized-kind action used by the C10 witness. -/
def uploadAction : JVal :=
  .jobj [("type", .jstr "upload"), ("selector", .jstr "#file"),
         ("value", .jstr "resume.pdf")]

/-- Witness for `C10_unknown_kind_succeeds`: at the benign environment an
`upload` action is reported successful while no browser operation runs. -/
theorem C10_witness :
    (execute_action unitEnv uploadAction ()).ok = true
    ∧ (execute_action unitEnv uploadAction ()).tr.countP isBrowserActionEv = 0
    ∧ (execute_action unitEnv uploadAction ()).tr.countP isSettleRun = 1 := by
  obtain ⟨tr, h1, h2, _, h4⟩ := C10_unknown_kind_succeeds unitEnv uploadAction
    (.jstr "upload") (.jstr "#file") (.jstr "resume.pdf") ()
    rfl rfl rfl rfl rfl rfl rfl rfl
    (Or.inr (fun _ _ => rfl)) (fun _ => rfl) (fun _ => rfl) (fun _ => rfl) (fun _ _ => rfl)
  rw [h1]
  exact ⟨rfl, h2, h4⟩

/-! ## Claim C4 — retry bound and timeout handling of `execute_action` -/

/-- The retry loop starts at most `fuel` iterations. -/
theorem execLoop_attempts_le {σT : Type} (env : Env σT) (a : JVal) :
    ∀ (fuel rc : ℕ) (σ0 : σT), (execLoop env a fuel rc σ0).nAttempts ≤ fuel := by
  intro fuel
  induction fuel with
  | zero =>
    intro rc σ0
    simp [execLoop]
  | succ n ih =>
    intro rc σ0
    rcases h : execIter env a σ0 with ⟨r, σ1, trI⟩
    cases r with
    | done => simp [execLoop, h]
    | raised m => simp [execLoop, h]
    | contA =>
      have hle := ih (rc + 1) σ1
      simp [execLoop, h]
      omega
    | contB =>
      have hle := ih (rc + 1) (env.sleep 1000 σ1)
      simp [execLoop, h]
      omega

/-- When every iteration body ends in an immediate-continue (selector-wait
timeout or missing element) without changing state, the loop runs through its
whole budget with no 1-second sleep, one selector-timeout log per iteration,
and a false result. -/
theorem execLoop_allContA {σT : Type} (env : Env σT) (a : JVal) (trA : List Ev)
    (hiter : ∀ σ, execIter env a σ = (.contA, σ, trA))
    (h1 : trA.countP (isSleepMs 1000) = 0)
    (h2 : trA.countP isSelTimeoutLog = 1)
    (h3 : trA.countP isAttemptStart = 0) :
    ∀ (fuel rc : ℕ) (σ0 : σT), ∃ tr, execLoop env a fuel rc σ0 = ⟨false, σ0, tr, fuel⟩
      ∧ tr.countP (isSleepMs 1000) = 0
      ∧ tr.countP isSelTimeoutLog = fuel
      ∧ tr.countP isAttemptStart = fuel := by
  intro fuel
  induction fuel with
  | zero =>
    intro rc σ0
    exact ⟨[], rfl, rfl, rfl, rfl⟩
  | succ n ih =>
    intro rc σ0
    obtain ⟨tr, heq, c1, c2, c3⟩ := ih (rc + 1) σ0
    refine ⟨.attemptStart rc :: trA ++ tr, ?_, ?_, ?_, ?_⟩
    · simp only [execLoop, hiter, heq]
    · simp [List.countP_cons, List.countP_append, isSleepMs, h1, c1]
    · simp [List.countP_cons, List.countP_append, isSelTimeoutLog, h2, c2]
      omega
    · simp [List.countP_cons, List.countP_append, isAttemptStart, h3, c3]

/-- When every iteration body raises a `PlaywrightTimeout` from the action
dispatch itself without changing state, the loop logs the attempt, sleeps 1
second, and retries — exhausting its budget with one 1-second sleep and one
action-timeout log per iteration and a false result. -/
theorem execLoop_allContB {σT : Type} (env : Env σT) (a : JVal) (trB : List Ev)
    (hiter : ∀ σ, execIter env a σ = (.contB, σ, trB))
    (hsleep : ∀ n σ, env.sleep n σ = σ)
    (h1 : trB.countP (isSleepMs 1000) = 0)
    (h2 : trB.countP isActionTimeoutLog = 0)
    (h3 : trB.countP isAttemptStart = 0) :
    ∀ (fuel rc : ℕ) (σ0 : σT), ∃ tr, execLoop env a fuel rc σ0 = ⟨false, σ0, tr, fuel⟩
      ∧ tr.countP (isSleepMs 1000) = fuel
      ∧ tr.countP isActionTimeoutLog = fuel
      ∧ tr.countP isAttemptStart = fuel := by
  intro fuel
  induction fuel with
  | zero =>
    intro rc σ0
    exact ⟨[], rfl, rfl, rfl, rfl⟩
  | succ n ih =>
    intro rc σ0
    obtain ⟨tr, heq, c1, c2, c3⟩ := ih (rc + 1) σ0
    refine ⟨.attemptStart rc :: trB ++ [.logActionTimeout (rc + 1), .sleep 1000] ++ tr,
      ?_, ?_, ?_, ?_⟩
    · simp only [execLoop, hiter, hsleep, heq]
    · simp [List.countP_cons, List.countP_append, isSleepMs, h1, c1]
    · simp [List.countP_cons, List.countP_append, isActionTimeoutLog, h2, c2]
    · simp [List.countP_cons, List.countP_append, isAttemptStart, h3, c3]

/-- Environment whose selector waits always time out. -/
def selTimeoutEnv : Env Unit :=
  { unitEnv with waitForSelector := fun _ _ _ => (.error .timeout, ()) }

/-- The click action used by the C4 scenarios. -/
def clickAction : JVal :=
  .jobj [("type", .jstr "click"), ("selector", .jstr "#apply")]

/-- C4 counterexample: the claim says that on each selector/visibility
timeout the executor logs, increments the retry count, *sleeps 1 second*,
and retries.  With every selector wait timing out, the source's inner
handler (`retry_count += 1; continue`) retries immediately: three selector
timeouts are logged, the action fails after 3 attempts, and no 1-second
sleep ever happens. -/
theorem C4_no_sleep_counterexample :
    (execute_action selTimeoutEnv clickAction ()).ok = false
    ∧ (execute_action selTimeoutEnv clickAction ()).nAttempts = 3
    ∧ (execute_action selTimeoutEnv clickAction ()).tr.countP isSelTimeoutLog = 3
    ∧ (execute_action selTimeoutEnv clickAction ()).tr.countP (isSleepMs 1000) = 0 :=
  ⟨rfl, rfl, rfl, rfl⟩

/-- C4 (amended): `execute_action` makes at most 3 attempts and, after
exhausting them, returns false; on a timeout of the initial selector wait it
logs, increments the retry count, and retries *immediately without
sleeping*; on a `PlaywrightTimeout` raised while performing the action it
logs the attempt, sleeps 1 second, and retries; the catch-all handler makes
the routine total, so it never raises. -/
theorem C4_retry_amended {σT : Type} (env : Env σT) :
    (∀ (a : JVal) (σ0 : σT), (execute_action env a σ0).nAttempts ≤ 3)
    ∧ (∀ (act tv sv vv : JVal) (σ0 : σT),
        pyGetD act "type" .jnull = .ok tv →
        pyGetD act "selector" .jnull = .ok sv →
        pyGetD act "value" (.jstr "") = .ok vv →
        pyTruthy sv = true →
        (∀ s n σ, env.waitForSelector s n σ = (.error .timeout, σ)) →
        ∃ tr, execute_action env act σ0 = ⟨false, σ0, tr, 3⟩
          ∧ tr.countP (isSleepMs 1000) = 0
          ∧ tr.countP isSelTimeoutLog = 3
          ∧ tr.countP isAttemptStart = 3)
    ∧ (∀ (act sv vv : JVal) (σ0 : σT),
        pyGetD act "type" .jnull = .ok (.jstr "click") →
        pyGetD act "selector" .jnull = .ok sv →
        pyGetD act "value" (.jstr "") = .ok vv →
        pyTruthy sv = true →
        (∀ s n σ, env.waitForSelector s n σ = (.ok (some ()), σ)) →
        (∀ s σ, env.evalScroll s σ = (.ok (), σ)) →
        (∀ n σ, env.sleep n σ = σ) →
        (∀ s σ, env.click s σ = (.error .timeout, σ)) →
        ∃ tr, execute_action env act σ0 = ⟨false, σ0, tr, 3⟩
          ∧ tr.countP (isSleepMs 1000) = 3
          ∧ tr.countP isActionTimeoutLog = 3
          ∧ tr.countP isAttemptStart = 3) := by
  refine ⟨fun a σ0 => execLoop_attempts_le env a 3 0 σ0, ?_, ?_⟩
  · intro act tv sv vv σ0 htype hsel hval htr hto
    have hiter : ∀ σ, execIter env act σ
        = (.contA, σ, [.waitSelector sv 5000, .logSelTimeout sv]) := by
      intro σ
      simp only [execIter, htype, hsel, hval, htr, if_true, hto]
    exact execLoop_allContA env act _ hiter rfl rfl rfl 3 0 σ0
  · intro act sv vv σ0 htype hsel hval htr hws hscroll hsleep hclick
    have hdisp : ∀ σ, execDispatch env (.jstr "click") sv vv σ
        = (.error .timeout, σ,
           [.waitSelector sv 30000, .evalScroll sv, .sleep 500, .click sv]) := by
      intro σ
      have hbridge : execDispatch env (.jstr "click") sv vv σ
          = (match env.waitForSelector sv 30000 σ with
             | (.error e, σ1) => (.error e, σ1, [.waitSelector sv 30000])
             | (.ok _, σ1) =>
               match env.evalScroll sv σ1 with
               | (.error e, σ2) => (.error e, σ2, [.waitSelector sv 30000, .evalScroll sv])
               | (.ok _, σ2) =>
                 match env.click sv (env.sleep 500 σ2) with
                 | (.error e, σ4) =>
                     (.error e, σ4,
                      [.waitSelector sv 30000, .evalScroll sv, .sleep 500, .click sv])
                 | (.ok _, σ4) =>
                     (.ok (), σ4,
                      [.waitSelector sv 30000, .evalScroll sv, .sleep 500, .click sv])) := rfl
      rw [hbridge]
      simp [hws, hscroll, hsleep, hclick]
    have hiter : ∀ σ, execIter env act σ
        = (.contB, σ,
           [.waitSelector sv 5000, .waitSelector sv 30000, .evalScroll sv, .sleep 500,
            .click sv]) := by
      intro σ
      simp only [execIter, htype, hsel, hval, htr, if_true, hws, hdisp]
    exact execLoop_allContB env act _ hiter hsleep rfl rfl rfl 3 0 σ0

/-- Environment whose click operation always times out while everything else
succeeds. -/
def clickTimeoutEnv : Env Unit :=
  { unitEnv with click := fun _ _ => (.error .timeout, ()) }

/-- Witness for `C4_retry_amended`: the attempt bound, the sleepless
selector-timeout exhaustion, and the sleeping action-timeout exhaustion at
concrete environments. -/
theorem C4_witness :
    (execute_action unitEnv clickAction ()).nAttempts ≤ 3
    ∧ ((execute_action selTimeoutEnv clickAction ()).ok = false
        ∧ (execute_action selTimeoutEnv clickAction ()).nAttempts = 3
        ∧ (execute_action selTimeoutEnv clickAction ()).tr.countP (isSleepMs 1000) = 0)
    ∧ ((execute_action clickTimeoutEnv clickAction ()).ok = false
        ∧ (execute_action clickTimeoutEnv clickAction ()).tr.countP (isSleepMs 1000) = 3) := by
  obtain ⟨ha, hb, hc⟩ := C4_retry_amended selTimeoutEnv
  obtain ⟨tr, heqb, cb1, _, _⟩ := hb clickAction (.jstr "click") (.jstr "#apply") (.jstr "") ()
    rfl rfl rfl rfl (fun _ _ _ => rfl)
  obtain ⟨ha2, hb2, hc2⟩ := C4_retry_amended clickTimeoutEnv
  obtain ⟨tr2, heqc, cc1, _, _⟩ := hc2 clickAction (.jstr "#apply") (.jstr "") ()
    rfl rfl rfl rfl (fun _ _ _ => rfl) (fun _ _ => rfl) (fun _ _ => rfl) (fun _ _ => rfl)
  refine ⟨(C4_retry_amended unitEnv).1 clickAction (), ⟨?_, ?_, ?_⟩, ⟨?_, ?_⟩⟩
  · rw [heqb]
  · rw [heqb]
  · rw [heqb]
    exact cb1
  · rw [heqc]
  · rw [heqc]
    exact cc1

/-! ## Claim C5 — form fill aborts on the first failing action -/

/-- The form-fill action loop stops at the first failing action: everything
before it is executed successfully, the failing action is reported, and no
later action is attempted. -/
theorem runFormActions_firstFail {σT : Type} (env : Env σT) (a : JVal) (post : List JVal)
    (ha : ∀ σ, (execute_action env a σ).ok = false) :
    ∀ (pre : List JVal), (∀ b ∈ pre, ∀ σ, (execute_action env b σ).ok = true) →
    ∀ σ0, ∃ σ1, runFormActions env (pre ++ a :: post) σ0
      = (some a, σ1, pre.map (fun b => (b, true)) ++ [(a, false)]) := by
  intro pre
  induction pre with
  | nil =>
    intro _ σ0
    refine ⟨(execute_action env a σ0).st, ?_⟩
    have hok := ha σ0
    simp only [List.nil_append, List.map_nil, runFormActions, hok]
  | cons b rest ih =>
    intro hpre σ0
    have hb : (execute_action env b σ0).ok = true :=
      hpre b (List.mem_cons_self b rest) σ0
    obtain ⟨σ1, heq⟩ :=
      ih (fun c hc σ => hpre c (List.mem_cons_of_mem b hc) σ) (execute_action env b σ0).st
    refine ⟨σ1, ?_⟩
    simp only [List.cons_append, runFormActions, hb, List.append_eq, heq, List.map_cons]

/-- C5: for every form-fill plan whose action sequence contains a failing
action (everything before it succeeding), `submit_application_form` returns
an error result naming that first failing action, executes exactly the
actions up to and including it, and never attempts any later action — in
particular the submit click is never reached. -/
theorem C5_form_fill_aborts {σT : Type} (env : Env σT) (appData : JVal)
    (pre post : List JVal) (a : JVal)
    (hcap : ∀ σ, ∃ c σ2, get_page_content env σ = (.ok c, σ2))
    (hver : ∀ c σ, verifySuccess ((env.verifyState c "application_form" σ).1) = .ok true)
    (hplan : ∀ c σ, planIsError ((env.getFormFillPlan c appData σ).1) = .ok false
           ∧ planActions ((env.getFormFillPlan c appData σ).1) = .ok (pre ++ a :: post))
    (hpre : ∀ b ∈ pre, ∀ σ, (execute_action env b σ).ok = true)
    (ha : ∀ σ, (execute_action env a σ).ok = false) (σ0 : σT) :
    ∃ σ9, submit_application_form env appData σ0
      = ⟨.errorMsg (failedActionMsg a), σ9, pre.map (fun b => (b, true)) ++ [(a, false)]⟩ := by
  obtain ⟨c, σ1, hc⟩ := hcap σ0
  rcases hv : env.verifyState c "application_form" σ1 with ⟨fv, σ2⟩
  have hfv : verifySuccess fv = .ok true := by
    have := hver c σ1
    rw [hv] at this
    exact this
  rcases hp : env.getFormFillPlan c appData σ2 with ⟨fp, σ3⟩
  have hpe : planIsError fp = .ok false := by
    have := (hplan c σ2).1
    rw [hp] at this
    exact this
  have hpa : planActions fp = .ok (pre ++ a :: post) := by
    have := (hplan c σ2).2
    rw [hp] at this
    exact this
  obtain ⟨σ4, hrf⟩ := runFormActions_firstFail env a post ha pre hpre σ3
  refine ⟨σ4, ?_⟩
  simp only [submit_application_form, hc, hv, hfv, hp, hpe, hpa, hrf]

/-- Environment for the C5 witness: the verifier accepts the form page and
the form-fill plan carries three actions whose middle one fails. -/
def formEnv : Env Unit :=
  { unitEnv with
    verifyState := fun _ _ _ => (.jobj [("success", .jbool true)], ())
    getFormFillPlan := fun _ _ _ =>
      (.jobj [("status", .jstr "pending"),
              ("actions",
               .jarr [waitAction (.jstr "0"), waitAction (.jnum 1 0),
                      waitAction (.jstr "1")])], ()) }

/-- Witness for `C5_form_fill_aborts` at the spec's 3-action scenario: the
second action fails, the result names it, the third action and the submit
click are never attempted. -/
theorem C5_witness :
    submit_application_form formEnv (.jobj []) ()
      = ⟨.errorMsg (failedActionMsg (waitAction (.jnum 1 0))), (),
         [(waitAction (.jstr "0"), true), (waitAction (.jnum 1 0), false)]⟩ := by
  obtain ⟨σ9, h⟩ := C5_form_fill_aborts formEnv (.jobj [])
    [waitAction (.jstr "0")] [waitAction (.jstr "1")] (waitAction (.jnum 1 0))
    (fun σ => ⟨unitContent, (), rfl⟩) (fun _ _ => rfl) (fun _ _ => ⟨rfl, rfl⟩)
    (by
      intro b hb σ
      rw [List.mem_singleton] at hb
      subst hb
      rfl)
    (fun _ => rfl) ()
  exact h

/-! ## Claim C1 — the 5-attempt ceiling -/

/-- When every verification reports failure, running a plan's actions never
reaches the target state: the per-plan loop completes with no success
result. -/
theorem runPlanActions_none {σT : Type} (env : Env σT) (t : String)
    (hcap : ∀ σ, ∃ c σ2, get_page_content env σ = (.ok c, σ2))
    (hver : ∀ c σ, verifySuccess ((env.verifyState c t σ).1) = .ok false)
    (hsettle : ∀ σ, ∃ σ2 tr, wait_for_page_load env σ = ⟨.ok (), σ2, tr⟩) :
    ∀ (acts : List JVal) (σ0 : σT), ∃ σ1 execs,
      runPlanActions env t acts σ0 = ⟨.ok none, σ1, execs⟩ := by
  intro acts
  induction acts with
  | nil =>
    intro σ0
    exact ⟨σ0, [], rfl⟩
  | cons a rest ih =>
    intro σ0
    cases hok : (execute_action env a σ0).ok with
    | false =>
      obtain ⟨σ1, execs, h⟩ := ih (execute_action env a σ0).st
      exact ⟨σ1, (a, false) :: execs, by simp only [runPlanActions, hok, h]⟩
    | true =>
      obtain ⟨σ1, tr, hs⟩ := hsettle (execute_action env a σ0).st
      obtain ⟨c, σ2, hc⟩ := hcap σ1
      rcases hv : env.verifyState c t σ2 with ⟨v, σ3⟩
      have hvf : verifySuccess v = .ok false := by
        have := hver c σ2
        rw [hv] at this
        exact this
      obtain ⟨σ4, execs, h⟩ := ih σ3
      exact ⟨σ4, (a, true) :: execs, by simp only [runPlanActions, hok, hs, hc, hv, hvf, h]⟩

/-- With failing verifications, usable plans and healthy waits, the attempt
loop burns its whole budget: one attempt log per budget unit, each holding
one plan request made from that attempt's snapshot, and the exhaustion error
result at the end. -/
theorem navLoop_exhaust {σT : Type} (env : Env σT) (t : String)
    (hcap : ∀ σ, ∃ c σ2, get_page_content env σ = (.ok c, σ2))
    (hver : ∀ c σ, verifySuccess ((env.verifyState c t σ).1) = .ok false)
    (hplanOk : ∀ c σ, planIsError ((env.getNavPlan c t σ).1) = .ok false)
    (hplanActs : ∀ c σ, ∃ acts, planActions ((env.getNavPlan c t σ).1) = .ok acts)
    (hsettle : ∀ σ, ∃ σ2 tr, wait_for_page_load env σ = ⟨.ok (), σ2, tr⟩) :
    ∀ (fuel : ℕ) (σ0 : σT), ∃ σ1 logs,
      navLoop env t fuel σ0
        = ⟨.ok (.errorMsg "Failed to reach target state after 5 attempts"), σ1, logs⟩
      ∧ logs.length = fuel
      ∧ ∀ l ∈ logs, ∃ p, l.planned = some (l.snapshot, p) := by
  intro fuel
  induction fuel with
  | zero =>
    intro σ0
    exact ⟨σ0, [], rfl, rfl, by simp⟩
  | succ n ih =>
    intro σ0
    obtain ⟨c, σ1, hc⟩ := hcap σ0
    rcases hv : env.verifyState c t σ1 with ⟨v, σ2⟩
    have hvf : verifySuccess v = .ok false := by
      have := hver c σ1
      rw [hv] at this
      exact this
    rcases hp : env.getNavPlan c t σ2 with ⟨p, σ3⟩
    have hpe : planIsError p = .ok false := by
      have := hplanOk c σ2
      rw [hp] at this
      exact this
    obtain ⟨acts, hpa0⟩ := hplanActs c σ2
    have hpa : planActions p = .ok acts := by
      rw [hp] at hpa0
      exact hpa0
    obtain ⟨σ4, execs, hrun⟩ := runPlanActions_none env t hcap hver hsettle acts σ3
    obtain ⟨σ5, logs, hloop, hlen, hplanned⟩ := ih σ4
    refine ⟨σ5, ⟨c, v, some (c, p), execs⟩ :: logs, ?_, by simp [hlen], ?_⟩
    · simp only [navLoop, hc, hv, hvf, hp, hpe, hpa, hrun, hloop]
    · intro l hl
      rcases List.mem_cons.mp hl with rfl | hl
      · exact ⟨p, rfl⟩
      · exact hplanned l hl

/-- C1: for every run of `navigate_with_ai` in which every verification call
reports failure, every plan request yields a usable (non-error, iterable)
plan, and captures and readiness waits do not raise — so no executed action
ever brings the page to the target state — the loop performs exactly 5
verify-plan-execute attempts, issues exactly 5 plan requests (one per
attempt, each passed the snapshot freshly captured at the top of that
attempt), and returns the error result naming the 5-attempt ceiling. -/
theorem C1_attempt_ceiling {σT : Type} (env : Env σT) (t : String)
    (hcap : ∀ σ, ∃ c σ2, get_page_content env σ = (.ok c, σ2))
    (hver : ∀ c σ, verifySuccess ((env.verifyState c t σ).1) = .ok false)
    (hplanOk : ∀ c σ, planIsError ((env.getNavPlan c t σ).1) = .ok false)
    (hplanActs : ∀ c σ, ∃ acts, planActions ((env.getNavPlan c t σ).1) = .ok acts)
    (hsettle : ∀ σ, ∃ σ2 tr, wait_for_page_load env σ = ⟨.ok (), σ2, tr⟩) (σ0 : σT) :
    ∃ σ1 logs, navigate_with_ai env t σ0
        = ⟨.ok (.errorMsg "Failed to reach target state after 5 attempts"), σ1, logs⟩
      ∧ logs.length = 5
      ∧ ∀ l ∈ logs, ∃ p, l.planned = some (l.snapshot, p) := by
  obtain ⟨σ1, logs, h, hlen, hpl⟩ :=
    navLoop_exhaust env t hcap hver hplanOk hplanActs hsettle 5 σ0
  exact ⟨σ1, logs, by simp only [navigate_with_ai, h], hlen, hpl⟩

/-- Witness for `C1_attempt_ceiling` at the benign environment (failing
verifier, empty successful plans): five attempts, the ceiling-naming error
result. -/
theorem C1_witness :
    (navigate_with_ai unitEnv "job search page" ()).res
        = .ok (.errorMsg "Failed to reach target state after 5 attempts")
    ∧ (navigate_with_ai unitEnv "job search page" ()).attempts.length = 5 := by
  obtain ⟨σ1, logs, h, hlen, _⟩ := C1_attempt_ceiling unitEnv "job search page"
    (fun σ => ⟨unitContent, (), rfl⟩) (fun _ _ => rfl) (fun _ _ => rfl)
    (fun _ _ => ⟨[], rfl⟩)
    (fun σ => ⟨(), [.settleRun, .netIdle, .domLoaded, .readyFn, .sleep 2000], rfl⟩) ()
  rw [h]
  exact ⟨rfl, hlen⟩
